import Mathlib

/-! # Ansible: the link layer between Dawn and Runtime

A shallow embedding of `dawn/main/ansible/Ansible.js`.  Every handler of the
file becomes a function from the state of its object to the new state and the
list of effects it performed, in program order.  Calls into libraries and into
files of the repository that are not part of the embedded sources (the protobuf
codecs, the tables of `utils`) are parameters of the handlers.
-/

namespace Dawn

/-! ## Values, effects -/

/-- Bytes of a datagram or of a chunk read from a stream. -/
abbrev Buffer := List Nat

/-- An exception value. -/
abbrev JSError := String

/-- JavaScript values as they occur in the payloads handed to the handlers.
The properties of an object are listed in enumeration order.  Finite numbers are
rationals; `nan` is the number that is not equal to itself. -/
inductive JSVal where
  | undefined : JSVal
  | null : JSVal
  | bool (b : Bool) : JSVal
  | nan : JSVal
  | num (q : ℚ) : JSVal
  | str (s : String) : JSVal
  | arr (items : List JSVal) : JSVal
  | obj (props : List (String × JSVal)) : JSVal

/-- The operator `===` on primitive values.  Two arrays or objects are equal
only when they are the same reference; a value that arrives in a payload is a
fresh copy, so it is never identical to a constant of a table. -/
def strictEq : JSVal → JSVal → Bool
  | .undefined, .undefined => true
  | .null, .null => true
  | .bool a, .bool b => a == b
  | .num a, .num b => a == b
  | .str a, .str b => a == b
  | _, _ => false

/-- Modelled from the spec: the enumeration `State` of `runtime.proto` (the file
is not among the sources).  The handler names only `STUDENT_STOPPED`; the
other running states are told apart by their tag. -/
inductive RuntimeData.State where
  | STUDENT_STOPPED : RuntimeData.State
  | other (tag : Nat) : RuntimeData.State
  deriving DecidableEq

/-- The two fields of a decoded `RuntimeData` message that the handler reads. -/
structure RuntimeData where
  robot_state : RuntimeData.State
  sensor_data : JSVal

/-- Modelled from the spec: the table `robotState` of `renderer/utils/utils`
(not among the sources), the values the renderer uses for the operating mode. -/
structure RobotStateTable where
  IDLE : JSVal
  TELEOP : JSVal
  AUTONOMOUS : JSVal
  ESTOP : JSVal

/-- Modelled from the spec: the enumeration `StudentCodeStatus` of `ansible.proto`
(not among the sources), as the table of its values. -/
structure StudentCodeStatusTable where
  IDLE : JSVal
  TELEOP : JSVal
  AUTONOMOUS : JSVal
  ESTOP : JSVal

/-- Modelled from the spec: the table `uploadStatus` of `renderer/utils/utils`
(not among the sources); these are the members `Ansible.js` names. -/
inductive uploadStatus where
  | SENT : uploadStatus
  | RECEIVED : uploadStatus
  | ERROR : uploadStatus
  deriving DecidableEq

/-- Modelled from the spec: the enumeration `Type` of `notification.proto` (not
among the sources); a header outside the three named ones is told apart by its
tag. -/
inductive Notification.Type where
  | STUDENT_SENT : Notification.Type
  | STUDENT_RECEIVED : Notification.Type
  | CONSOLE_LOGGING : Notification.Type
  | other (tag : Nat) : Notification.Type
  deriving DecidableEq

/-- The two fields of a `Notification` message. -/
structure Notification where
  header : Notification.Type
  console_output : String

/-- Modelled from the spec: the table `defaults` of `renderer/utils/utils` (not
among the sources); `IPADDRESS` is the member `Ansible.js` reads. -/
structure Defaults where
  IPADDRESS : String

/-- The calls on sockets, on the server and on `ipcMain` that the `close`
methods make. -/
inductive CloseCall where
  /-- The call `this.socket.close()` of `ListenSocket.close`. -/
  | listenSocketClose : CloseCall
  /-- The call `this.socket.close()` of `SendSocket.close`. -/
  | sendSocketClose : CloseCall
  /-- The call `this.socket.end()` of `TCPSocket.close`. -/
  | tcpSocketEnd : CloseCall
  /-- The call `this.tcp.close()` of `TCPServer.close`. -/
  | tcpClose : CloseCall
  /-- The call `ipcMain.removeListener(channel, listener)`. -/
  | removeListener (channel : String) : CloseCall
  deriving DecidableEq

/-- Modelled from the spec: the actions built by the creators of
`renderer/actions` (not among the sources).  An action is the creator that
was called and its argument. -/
inductive Action where
  | ansibleDisconnect : Action
  | notifyChange (status : uploadStatus) : Action
  | infoPerMessage (stateRobot : RuntimeData.State) : Action
  | updateCodeStatus (status : JSVal) : Action
  | updatePeripherals (sensorData : JSVal) : Action
  | updateConsole (output : String) : Action

/-- What a handler does to the outside, in program order. -/
inductive Effect where
  /-- The call `this.logger.log(entry)`. -/
  | log (entry : String) : Effect
  /-- The call `this.logger.log` on the text of a header followed by the row of
  asterisks. -/
  | logHeader (header : Notification.Type) : Effect
  /-- The call `RendererBridge.reduxDispatch(action)`. -/
  | dispatch (action : Action) : Effect
  /-- The call `this.socket.send(message, port, address)` on a UDP socket. -/
  | send (message : Buffer) (port : Nat) (address : String) : Effect
  /-- The call `this.socket.write(message, cb)` on the TCP socket; `count` is the
  attempt whose callback was passed. -/
  | write (message : Buffer) (count : Nat) : Effect
  /-- The call `setTimeout(() => this.waitRuntimeConfirm(message, count), ms)`. -/
  | setTimeout (message : Buffer) (count : Nat) (ms : Nat) : Effect
  /-- One of the calls made while closing. -/
  | call (c : CloseCall) : Effect

/-- The action of a dispatch. -/
def Effect.action? : Effect → Option Action
  | .dispatch a => some a
  | _ => none

/-- The argument of a dispatched `updateCodeStatus`. -/
def Effect.codeStatus? : Effect → Option JSVal
  | .dispatch (.updateCodeStatus s) => some s
  | _ => none

/-- The message, port and address of a datagram handed to a UDP socket. -/
def Effect.datagram? : Effect → Option (Buffer × Nat × String)
  | .send message port address => some (message, port, address)
  | _ => none

/-- Whether the effect is an entry of the log. -/
def Effect.isLog : Effect → Bool
  | .log _ => true
  | .logHeader _ => true
  | _ => false

/-- Whether the effect is a write to the TCP socket. -/
def Effect.isWrite : Effect → Bool
  | .write _ _ => true
  | _ => false

/-- The actions dispatched, in order. -/
def dispatched (es : List Effect) : List Action :=
  es.filterMap Effect.action?

/-- The arguments of the `updateCodeStatus` actions dispatched, in order. -/
def codeStatusUpdates (es : List Effect) : List JSVal :=
  es.filterMap Effect.codeStatus?

/-- The datagrams handed to a UDP socket, in order. -/
def datagrams (es : List Effect) : List (Buffer × Nat × String) :=
  es.filterMap Effect.datagram?

/-- The effects other than entries of the log, in order. -/
def withoutLogs (es : List Effect) : List Effect :=
  es.filter (fun e => !e.isLog)

/-- The writes to the TCP socket, in order. -/
def writes (es : List Effect) : List Effect :=
  es.filter Effect.isWrite

/-- The result of running a handler: the state it leaves, what it did, and the
exception that escaped it, if one did. -/
structure Outcome (σ : Type) where
  state : σ
  effects : List Effect
  raised : Option JSError

def LISTEN_PORT : Nat := 1235
def SEND_PORT : Nat := 1236
def TCP_PORT : Nat := 1234

/-! ## ListenSocket -/

/-- The mutable state of a `ListenSocket`. -/
structure ListenSocket where
  statusUpdateTimeout : Int

/-- The constructor: `this.statusUpdateTimeout = 0`. -/
def ListenSocket.new : ListenSocket :=
  { statusUpdateTimeout := 0 }

/-- The handler of `message` on the UDP socket.  `decode` is
`RuntimeData.decode`, which returns the message or throws. -/
def ListenSocket.onMessage (decode : Buffer → Except JSError RuntimeData)
    (robotState : RobotStateTable) (self : ListenSocket) (msg : Buffer) :
    ListenSocket × List Effect :=
  match decode msg with
  | .ok decoded =>
    let stateRobot := decoded.robot_state
    let sensorData := decoded.sensor_data
    let head := [Effect.log "Dawn received UDP", Effect.dispatch (.infoPerMessage stateRobot)]
    let mid : ListenSocket × List Effect :=
      if stateRobot = RuntimeData.State.STUDENT_STOPPED then
        if self.statusUpdateTimeout > 0 then
          ({ self with statusUpdateTimeout := self.statusUpdateTimeout - 1 }, [])
        else
          ({ self with statusUpdateTimeout := 0 },
            [Effect.dispatch (.updateCodeStatus robotState.IDLE)])
      else (self, [])
    (mid.1, head ++ mid.2 ++ [Effect.dispatch (.updatePeripherals sensorData)])
  | .error err =>
    (self, [Effect.log "Error decoding UDP", Effect.log err])

/-- The listener of `studentCodeStatus` on the IPC channel; `studentCodeStatus`
is the property of that name of the payload. -/
def ListenSocket.studentCodeStatusListener (StudentCodeStatus : StudentCodeStatusTable)
    (self : ListenSocket) (studentCodeStatus : JSVal) : ListenSocket :=
  if strictEq studentCodeStatus StudentCodeStatus.TELEOP
      || strictEq studentCodeStatus StudentCodeStatus.AUTONOMOUS then
    { self with statusUpdateTimeout := 5 }
  else self

/-- Datagrams are handled one at a time in arrival order; the result lists the
effects of each datagram separately. -/
def ListenSocket.onMessages (decode : Buffer → Except JSError RuntimeData)
    (robotState : RobotStateTable) (self : ListenSocket) :
    List Buffer → ListenSocket × List (List Effect)
  | [] => (self, [])
  | msg :: rest =>
    let r := ListenSocket.onMessage decode robotState self msg
    let rs := ListenSocket.onMessages decode robotState r.1 rest
    (rs.1, r.2 :: rs.2)

/-- The states a `ListenSocket` takes: the one the constructor leaves, and those
that the two handlers lead to from it, for any signal and any datagram. -/
inductive ListenSocket.Reachable (decode : Buffer → Except JSError RuntimeData)
    (robotState : RobotStateTable) (StudentCodeStatus : StudentCodeStatusTable) :
    ListenSocket → Prop where
  | new : ListenSocket.Reachable decode robotState StudentCodeStatus ListenSocket.new
  | signal (self : ListenSocket) (studentCodeStatus : JSVal) :
    ListenSocket.Reachable decode robotState StudentCodeStatus self →
    ListenSocket.Reachable decode robotState StudentCodeStatus
      (ListenSocket.studentCodeStatusListener StudentCodeStatus self studentCodeStatus)
  | message (self : ListenSocket) (msg : Buffer) :
    ListenSocket.Reachable decode robotState StudentCodeStatus self →
    ListenSocket.Reachable decode robotState StudentCodeStatus
      (ListenSocket.onMessage decode robotState self msg).1

/-! ## buildProto -/

/-- The read `value.key` of a property whose name is neither an index nor
`length` (the handlers read no other): reading from `undefined` or `null`
throws, and a value without the property gives `undefined`. -/
def JSVal.get (value : JSVal) (key : String) : Except JSError JSVal :=
  match value with
  | .undefined => .error ("TypeError: Cannot read property " ++ key ++ " of undefined")
  | .null => .error ("TypeError: Cannot read property " ++ key ++ " of null")
  | .obj props => .ok ((props.lookup key).getD .undefined)
  | _ => .ok .undefined

/-- The function `Boolean`: the truthiness of a value. -/
def Boolean : JSVal → Bool
  | .undefined => false
  | .null => false
  | .nan => false
  | .bool b => b
  | .num q => q != 0
  | .str s => s != ""
  | .arr _ => true
  | .obj _ => true

/-- The test of lodash for a valid array length: an integer from 0 to
2^53 - 1. -/
def isLength : JSVal → Option Nat
  | .num q =>
    if q.den = 1 ∧ 0 ≤ q.num ∧ q.num ≤ 9007199254740991 then some q.num.toNat else none
  | _ => none

/-- The function `_.toArray` of lodash: an array is copied, a string that is
not empty gives its symbols, an object with a valid `length` gives the values at
the indices below it, any other object gives the values of its properties, and
every other value gives the empty array.  `stringToArray` is the function of
that name inside lodash, which splits a string into its symbols: a character
together with the combining marks that follow it is one symbol. -/
def toArray (stringToArray : String → List String) : JSVal → List JSVal
  | .arr items => items
  | .str s => if s = "" then [] else (stringToArray s).map JSVal.str
  | .obj props =>
    match isLength ((props.lookup "length").getD .undefined) with
    | some n => (List.range n).map (fun i => (props.lookup (toString i)).getD .undefined)
    | none => props.map Prod.snd
  | _ => []

/-- The fields of a `DawnData.Gamepad` message once its constructor has set
them. -/
structure DawnData.Gamepad where
  index : JSVal
  axes : List JSVal
  buttons : List Bool

/-- The fields of a `DawnData` message once its constructor has set them. -/
structure DawnData where
  student_code_status : JSVal
  gamepads : List DawnData.Gamepad

/-- The operator `| 0` on an integer: the integer modulo 2^32, read as a signed
number of 32 bits. -/
def toInt32 (n : Int) : Int :=
  if n % 4294967296 ≥ 2147483648 then n % 4294967296 - 4294967296 else n % 4294967296

/-- Modelled from the spec: the field `index` of the message `Gamepad` of
`ansible.proto` (not among the sources), an optional signed integer of 32 bits,
with the check that protobufjs makes of a value set on such a field: `null`
stays, NaN and the integers pass, an integer above 4294967295 is reduced with
`| 0`, and every other value throws. -/
def DawnData.Gamepad.verifyIndex : JSVal → Except JSError JSVal
  | .null => .ok .null
  | .nan => .ok .nan
  | .num q =>
    if q.den = 1 then .ok (.num (if q > 4294967295 then (toInt32 q.num : ℚ) else q))
    else .error "Illegal value for index: number (not an integer)"
  | .arr _ => .error "Illegal value for index: object (no array expected)"
  | .undefined => .error "Illegal value for index: undefined (not an integer)"
  | .bool _ => .error "Illegal value for index: boolean (not an integer)"
  | .str _ => .error "Illegal value for index: string (not an integer)"
  | .obj _ => .error "Illegal value for index: object (not an integer)"

/-- Modelled from the spec: an entry of the field `axes` of the message `Gamepad`
of `ansible.proto` (not among the sources), a repeated floating-point number,
with the check that protobufjs makes of such an entry: a number passes as it
is, and every other value throws. -/
def DawnData.Gamepad.verifyAxis : JSVal → Except JSError JSVal
  | .nan => .ok .nan
  | .num q => .ok (.num q)
  | _ => .error "Illegal value for axes: not a number"

/-- The constructor call `new DawnData.Gamepad` on the object with the properties
`index`, `axes` and `buttons`.  The properties are set in the order written.
A property whose value is `undefined` is skipped, so that the field keeps `null`,
the value the constructor starts with; every other value is checked as the type
of the field asks.  The entries
of `buttons` are booleans, which a repeated field of booleans takes as they
are. -/
def DawnData.Gamepad.new (index : JSVal) (axes : List JSVal) (buttons : List Bool) :
    Except JSError DawnData.Gamepad := do
  let index ←
    match index with
    | .undefined => pure JSVal.null
    | value => DawnData.Gamepad.verifyIndex value
  let axes ← axes.mapM DawnData.Gamepad.verifyAxis
  pure { index := index, axes := axes, buttons := buttons }

/-- The callback that `buildProto` maps over the gamepads. -/
def buildProto.gamepad (stringToArray : String → List String) (gamepad : JSVal) :
    Except JSError DawnData.Gamepad := do
  let axes := toArray stringToArray (← gamepad.get "axes")
  let buttons := (toArray stringToArray (← gamepad.get "buttons")).map Boolean
  let index ← gamepad.get "index"
  DawnData.Gamepad.new index axes buttons

/-- The function `buildProto`.  The `switch` compares with `===`, case by case
in the order written.  The constructor of `DawnData` is handed a member of the
enumeration `StudentCodeStatus` and instances of `DawnData.Gamepad`, which it
takes as they are. -/
def buildProto (stringToArray : String → List String) (robotState : RobotStateTable)
    (StudentCodeStatus : StudentCodeStatusTable) (data : JSVal) : Except JSError DawnData := do
  let studentCodeStatus ← data.get "studentCodeStatus"
  let status :=
    if strictEq studentCodeStatus robotState.TELEOP then StudentCodeStatus.TELEOP
    else if strictEq studentCodeStatus robotState.AUTONOMOUS then StudentCodeStatus.AUTONOMOUS
    else if strictEq studentCodeStatus robotState.ESTOP then StudentCodeStatus.ESTOP
    else StudentCodeStatus.IDLE
  let gamepads ←
    (toArray stringToArray (← data.get "gamepads")).mapM (buildProto.gamepad stringToArray)
  pure { student_code_status := status, gamepads := gamepads }

/-- Whether a value is `undefined` or `null`, the two values from which no
property can be read. -/
def JSVal.isNullish : JSVal → Bool
  | .undefined => true
  | .null => true
  | _ => false

/-- The value of `value.key` for a value that is neither `undefined` nor
`null`, and a property name that is neither an index nor `length`. -/
def JSVal.prop (value : JSVal) (key : String) : JSVal :=
  match value with
  | .obj props => (props.lookup key).getD .undefined
  | _ => .undefined

/-- The members of `robotState` that the `switch` of `buildProto` names are
defined and no two of them are equal under `===`. -/
def RobotStateTable.Distinct (robotState : RobotStateTable) : Prop :=
  strictEq robotState.TELEOP robotState.AUTONOMOUS = false ∧
  strictEq robotState.TELEOP robotState.ESTOP = false ∧
  strictEq robotState.AUTONOMOUS robotState.ESTOP = false ∧
  strictEq .undefined robotState.TELEOP = false ∧
  strictEq .undefined robotState.AUTONOMOUS = false ∧
  strictEq .undefined robotState.ESTOP = false

/-- The four members of the enumeration `StudentCodeStatus` are different
values. -/
def StudentCodeStatusTable.Distinct (StudentCodeStatus : StudentCodeStatusTable) : Prop :=
  StudentCodeStatus.IDLE ≠ StudentCodeStatus.TELEOP ∧
  StudentCodeStatus.IDLE ≠ StudentCodeStatus.AUTONOMOUS ∧
  StudentCodeStatus.IDLE ≠ StudentCodeStatus.ESTOP ∧
  StudentCodeStatus.TELEOP ≠ StudentCodeStatus.AUTONOMOUS ∧
  StudentCodeStatus.TELEOP ≠ StudentCodeStatus.ESTOP ∧
  StudentCodeStatus.AUTONOMOUS ≠ StudentCodeStatus.ESTOP

/-- Whether the constructor of `Gamepad` takes a value as `index`: a missing
one, `null`, NaN or an integer. -/
def DawnData.Gamepad.acceptsIndex : JSVal → Bool
  | .undefined => true
  | .null => true
  | .nan => true
  | .num q => q.den == 1
  | _ => false

/-- Whether the constructor of `Gamepad` takes a value as an entry of `axes`:
a number. -/
def DawnData.Gamepad.acceptsAxis : JSVal → Bool
  | .nan => true
  | .num _ => true
  | _ => false

/-- The index that the constructor of `Gamepad` stores for a value it takes:
`null` for a missing one, the integer reduced with `| 0` when it is above
4294967295, and the value itself otherwise. -/
def DawnData.Gamepad.storedIndex : JSVal → JSVal
  | .undefined => .null
  | .num q => .num (if q > 4294967295 then (toInt32 q.num : ℚ) else q)
  | value => value

/-- Whether `buildProto` can build a gamepad from a value: it is neither
`undefined` nor `null`, its index is one the constructor takes, and so is
every entry of its axes. -/
def buildProto.acceptsGamepad (stringToArray : String → List String) (gamepad : JSVal) : Bool :=
  !gamepad.isNullish && DawnData.Gamepad.acceptsIndex (gamepad.prop "index") &&
    (toArray stringToArray (gamepad.prop "axes")).all DawnData.Gamepad.acceptsAxis

/-- Whether `buildProto` can build a frame from a payload: it is neither
`undefined` nor `null`, and a gamepad can be built from every entry of its
gamepads. -/
def buildProto.accepts (stringToArray : String → List String) (data : JSVal) : Bool :=
  !data.isNullish &&
    (toArray stringToArray (data.prop "gamepads")).all (buildProto.acceptsGamepad stringToArray)

/-- A stand-in for the function `stringToArray` of lodash, for examples: one
symbol for each character. -/
def sampleStringToArray (s : String) : List String :=
  s.toList.map String.singleton

/-- Values for the table `robotState`, for examples: IDLE 0, TELEOP 2,
AUTONOMOUS 1, ESTOP 3. -/
def sampleRobotState : RobotStateTable :=
  { IDLE := .num 0, TELEOP := .num 2, AUTONOMOUS := .num 1, ESTOP := .num 3 }

/-- Values for the enumeration `StudentCodeStatus`, for examples: IDLE 0,
TELEOP 1, AUTONOMOUS 2, ESTOP 3. -/
def sampleStudentCodeStatus : StudentCodeStatusTable :=
  { IDLE := .num 0, TELEOP := .num 1, AUTONOMOUS := .num 2, ESTOP := .num 3 }

/-- A payload of `stateUpdate`, for examples: TELEOP, and one gamepad with one
axis and two buttons. -/
def samplePayload : JSVal :=
  .obj [("studentCodeStatus", .num 2),
    ("gamepads", .arr [.obj [("index", .num 0), ("axes", .arr [.num 1]),
      ("buttons", .arr [.num 0, .str "x"])]])]

/-! ## SendSocket -/

/-- The mutable state of a `SendSocket`. -/
structure SendSocket where
  runtimeIP : String

/-- The constructor: `this.runtimeIP = defaults.IPADDRESS`. -/
def SendSocket.new (defaults : Defaults) : SendSocket :=
  { runtimeIP := defaults.IPADDRESS }

/-- The listener of `stateUpdate` on the IPC channel.  `encode` is
`.encode().toBuffer()` on the message built, which returns the bytes or throws
(the schema is in `ansible.proto`).  The method has no `try`: what `buildProto`
or `encode` throws leaves the method before the log entry and the send. -/
def SendSocket.sendGamepadMessages (stringToArray : String → List String)
    (robotState : RobotStateTable) (StudentCodeStatus : StudentCodeStatusTable)
    (encode : DawnData → Except JSError Buffer) (self : SendSocket) (data : JSVal) :
    Outcome SendSocket :=
  match buildProto stringToArray robotState StudentCodeStatus data >>= encode with
  | .error err => { state := self, effects := [], raised := some err }
  | .ok message =>
    { state := self,
      effects := [Effect.log ("Dawn sent UDP to " ++ self.runtimeIP),
        Effect.send message SEND_PORT self.runtimeIP],
      raised := none }

/-- The listener of `ipAddress` on the IPC channel; `ipAddress` is the property
of that name of the payload. -/
def SendSocket.ipAddressListener (self : SendSocket) (ipAddress : String) : SendSocket :=
  { self with runtimeIP := ipAddress }

/-! ## TCPSocket -/

/-- The mutable state of a `TCPSocket`, and the continuations it has handed to
`setTimeout` that have not run yet, oldest first, each with the arguments
`message` and `count` of the call of `waitRuntimeConfirm` it will make.  Every
continuation is scheduled with the same delay, so they run in the order in
which they were scheduled. -/
structure TCPSocket where
  received : Bool
  pending : List (Buffer × Nat)

/-- The constructor: `this.received = false`, nothing scheduled. -/
def TCPSocket.new : TCPSocket :=
  { received := false, pending := [] }

/-- The handler of `data` on the TCP socket.  `decode` is `Notification.decode`,
which returns the message or throws.  The handler has no `try`: what `decode`
throws leaves the handler after the assignment to `received`. -/
def TCPSocket.onData (decode : Buffer → Except JSError Notification) (self : TCPSocket)
    (data : Buffer) : Outcome TCPSocket :=
  let self1 := { self with received := true }
  match decode data with
  | .error err => { state := self1, effects := [], raised := some err }
  | .ok decoded =>
    if decoded.header = Notification.Type.STUDENT_RECEIVED then
      { state := self1,
        effects := [Effect.log "Dawn received TCP",
          Effect.dispatch (.notifyChange uploadStatus.RECEIVED)],
        raised := none }
    else if decoded.header = Notification.Type.CONSOLE_LOGGING then
      { state := self1,
        effects := [Effect.log "Dawn received TCP",
          Effect.dispatch (.updateConsole decoded.console_output)],
        raised := none }
    else
      { state := self1,
        effects := [Effect.log "Dawn received TCP", Effect.logHeader decoded.header],
        raised := none }

/-- The `try` statement around `this.socket.write(message, cb)`, whose `catch`
logs the exception; `thrown` is what the call of `write` throws, if it throws. -/
def TCPSocket.tryWrite (thrown : Option JSError) (message : Buffer) (count : Nat) :
    List Effect :=
  match thrown with
  | none => [Effect.write message count]
  | some e => [Effect.write message count, Effect.log e]

/-- The method `waitRuntimeConfirm`; `thrown` is what `this.socket.write` throws
if the method calls it. -/
def TCPSocket.waitRuntimeConfirm (self : TCPSocket) (message : Buffer) (count : Nat)
    (thrown : Option JSError) : Outcome TCPSocket :=
  if count > 3 then
    { state := self,
      effects := [Effect.log "Runtime failed to confirm",
        Effect.dispatch (.notifyChange uploadStatus.ERROR)],
      raised := none }
  else if !self.received then
    { state := { self with pending := self.pending ++ [(message, count + 1)] },
      effects := TCPSocket.tryWrite thrown message count ++
        [Effect.setTimeout message (count + 1) 1000],
      raised := none }
  else { state := self, effects := [], raised := none }

/-- The method `tryUpload`, the listener of `NOTIFY_UPLOAD` on the IPC channel.
`encode` is `.encode().toBuffer()` on a `Notification`. -/
def TCPSocket.tryUpload (encode : Notification → Buffer) (self : TCPSocket)
    (thrown : Option JSError) : Outcome TCPSocket :=
  let message := encode { header := Notification.Type.STUDENT_SENT, console_output := "" }
  let self1 := { self with received := false }
  let r := TCPSocket.waitRuntimeConfirm self1 message 0 thrown
  { state := r.state,
    effects := Effect.dispatch (.notifyChange uploadStatus.SENT) :: r.effects,
    raised := r.raised }

/-- What the event loop delivers to a `TCPSocket`.  An event that can lead to a
call of `this.socket.write` carries what that call throws, if it throws. -/
inductive TCPEvent where
  /-- The message `NOTIFY_UPLOAD` arrives on the IPC channel. -/
  | NOTIFY_UPLOAD (thrown : Option JSError) : TCPEvent
  /-- Bytes arrive on the TCP socket. -/
  | data (bytes : Buffer) : TCPEvent
  /-- The oldest continuation handed to `setTimeout` is due and runs. -/
  | timeout (thrown : Option JSError) : TCPEvent

/-- One turn of the event loop. -/
def TCPSocket.step (decode : Buffer → Except JSError Notification)
    (encode : Notification → Buffer) (self : TCPSocket) : TCPEvent → Outcome TCPSocket
  | .NOTIFY_UPLOAD thrown => TCPSocket.tryUpload encode self thrown
  | .data bytes => TCPSocket.onData decode self bytes
  | .timeout thrown =>
    match self.pending with
    | [] => { state := self, effects := [], raised := none }
    | (message, count) :: rest =>
      TCPSocket.waitRuntimeConfirm { self with pending := rest } message count thrown

/-- The turns of the event loop for a list of events, up to the first
exception that escapes a handler. -/
def TCPSocket.run (decode : Buffer → Except JSError Notification)
    (encode : Notification → Buffer) (self : TCPSocket) : List TCPEvent → Outcome TCPSocket
  | [] => { state := self, effects := [], raised := none }
  | ev :: rest =>
    let r := TCPSocket.step decode encode self ev
    match r.raised with
    | some err => { state := r.state, effects := r.effects, raised := some err }
    | none =>
      let rs := TCPSocket.run decode encode r.state rest
      { state := rs.state, effects := r.effects ++ rs.effects, raised := rs.raised }

/-! ## close -/

/-- The calls of a method body in order, up to the first that throws; `throws`
tells what a call throws, if it throws. -/
def runCalls (throws : CloseCall → Option JSError) : List CloseCall → Outcome Unit
  | [] => { state := (), effects := [], raised := none }
  | c :: rest =>
    match throws c with
    | some err => { state := (), effects := [Effect.call c], raised := some err }
    | none =>
      let rs := runCalls throws rest
      { state := (), effects := Effect.call c :: rs.effects, raised := rs.raised }

/-- The body of `ListenSocket.close`. -/
def ListenSocket.close (throws : CloseCall → Option JSError) : Outcome Unit :=
  runCalls throws [.listenSocketClose, .removeListener "studentCodeStatus"]

/-- The body of `SendSocket.close`. -/
def SendSocket.close (throws : CloseCall → Option JSError) : Outcome Unit :=
  runCalls throws [.sendSocketClose, .removeListener "stateUpdate", .removeListener "ipAddress"]

/-- The calls of `TCPSocket.close`. -/
def TCPSocket.closeCalls : List CloseCall :=
  [.tcpSocketEnd, .removeListener "NOTIFY_UPLOAD"]

/-- The body of `TCPServer.close`; `session` tells whether `this.socket` is set,
that is, whether a peer has connected. -/
def TCPServer.close (throws : CloseCall → Option JSError) (session : Bool) : Outcome Unit :=
  runCalls throws ((if session then TCPSocket.closeCalls else []) ++ [.tcpClose])

/-- The connections of `Ansible.conns`. -/
inductive Conn where
  | ListenSocket : Conn
  | SendSocket : Conn
  | TCPServer (session : Bool) : Conn
  deriving DecidableEq

/-- The call `conn.close()`. -/
def Conn.close (throws : CloseCall → Option JSError) : Conn → Outcome Unit
  | .ListenSocket => ListenSocket.close throws
  | .SendSocket => SendSocket.close throws
  | .TCPServer session => TCPServer.close throws session

/-- The value of `this.conns` after `Ansible.setup`. -/
def Ansible.setup (session : Bool) : List Conn :=
  [.ListenSocket, .SendSocket, .TCPServer session]

/-- The method `Ansible.close`: `this.conns.forEach(conn => conn.close())`.  An
exception thrown by the callback ends the `forEach`.  The state of the outcome
lists the connections whose `close` was called. -/
def Ansible.close (throws : CloseCall → Option JSError) : List Conn → Outcome (List Conn)
  | [] => { state := [], effects := [], raised := none }
  | conn :: rest =>
    let r := conn.close throws
    match r.raised with
    | some err => { state := [conn], effects := r.effects, raised := some err }
    | none =>
      let rs := Ansible.close throws rest
      { state := conn :: rs.state, effects := r.effects ++ rs.effects, raised := rs.raised }

/-! ## Theorems -/

theorem ListenSocket.onMessage_stopped (decode : Buffer → Except JSError RuntimeData)
    (robotState : RobotStateTable) (self : ListenSocket) (msg : Buffer) (d : JSVal)
    (h : decode msg = .ok ⟨.STUDENT_STOPPED, d⟩) :
    ListenSocket.onMessage decode robotState self msg =
      if self.statusUpdateTimeout > 0 then
        ({ self with statusUpdateTimeout := self.statusUpdateTimeout - 1 },
          [Effect.log "Dawn received UDP", Effect.dispatch (.infoPerMessage .STUDENT_STOPPED),
           Effect.dispatch (.updatePeripherals d)])
      else
        ({ self with statusUpdateTimeout := 0 },
          [Effect.log "Dawn received UDP", Effect.dispatch (.infoPerMessage .STUDENT_STOPPED),
           Effect.dispatch (.updateCodeStatus robotState.IDLE),
           Effect.dispatch (.updatePeripherals d)]) := by
  unfold ListenSocket.onMessage
  rw [h]
  by_cases hc : self.statusUpdateTimeout > 0 <;> simp [hc]

/-- Trace of a frame that decodes to `STUDENT_STOPPED`, by the value of the counter. -/
theorem ListenSocket.onMessages_stopped (decode : Buffer → Except JSError RuntimeData)
    (robotState : RobotStateTable) (msgs : List Buffer)
    (hstopped : ∀ m ∈ msgs, ∃ d, decode m = .ok ⟨.STUDENT_STOPPED, d⟩) :
    ∀ (k : Nat) (self : ListenSocket), self.statusUpdateTimeout = (k : Int) →
      ((ListenSocket.onMessages decode robotState self msgs).2.length = msgs.length) ∧
      ∀ (i : Nat) (t : List Effect),
        (ListenSocket.onMessages decode robotState self msgs).2[i]? = some t →
        codeStatusUpdates t = if i < k then [] else [robotState.IDLE] := by
  induction msgs with
  | nil => intro k self _; simp [ListenSocket.onMessages]
  | cons m rest ih =>
    intro k self hk
    obtain ⟨d, hd⟩ := hstopped m (List.mem_cons_self _ _)
    have hrest : ∀ m ∈ rest, ∃ d, decode m = .ok ⟨.STUDENT_STOPPED, d⟩ :=
      fun x hx => hstopped x (List.mem_cons_of_mem _ hx)
    have hm := ListenSocket.onMessage_stopped decode robotState self m d hd
    cases k with
    | zero =>
      have hz : ¬ self.statusUpdateTimeout > 0 := by rw [hk]; simp
      rw [if_neg hz] at hm
      obtain ⟨hl, hi⟩ := ih hrest 0 { self with statusUpdateTimeout := 0 } rfl
      refine ⟨by simp [ListenSocket.onMessages, hm, hl], ?_⟩
      intro i t ht
      cases i with
      | zero =>
        simp [ListenSocket.onMessages, hm] at ht
        subst ht
        simp [codeStatusUpdates, Effect.codeStatus?]
      | succ j =>
        simp [ListenSocket.onMessages, hm] at ht
        have := hi j t ht
        simpa using this
    | succ n =>
      have hp : self.statusUpdateTimeout > 0 := by rw [hk]; positivity
      rw [if_pos hp] at hm
      have hn : ({ self with statusUpdateTimeout := self.statusUpdateTimeout - 1 } :
          ListenSocket).statusUpdateTimeout = (n : Int) := by
        simp [hk]
      obtain ⟨hl, hi⟩ := ih hrest n _ hn
      refine ⟨by simp [ListenSocket.onMessages, hm, hl], ?_⟩
      intro i t ht
      cases i with
      | zero =>
        simp [ListenSocket.onMessages, hm] at ht
        subst ht
        simp [codeStatusUpdates, Effect.codeStatus?]
      | succ j =>
        simp [ListenSocket.onMessages, hm] at ht
        have := hi j t ht
        simpa using this

/-- C1: after a TELEOP or AUTONOMOUS start signal, N consecutive frames that
decode to STUDENT_STOPPED are handled so that none of the first min(N,5) frames
dispatches updateCodeStatus, and, when N is at least 6, the 6th frame dispatches
exactly one updateCodeStatus, with argument robotState.IDLE. -/
theorem ListenSocket.idle_suppressed_after_start
    (decode : Buffer → Except JSError RuntimeData) (robotState : RobotStateTable)
    (StudentCodeStatus : StudentCodeStatusTable) (self : ListenSocket)
    (studentCodeStatus : JSVal) (msgs : List Buffer)
    (hstart : strictEq studentCodeStatus StudentCodeStatus.TELEOP = true ∨
      strictEq studentCodeStatus StudentCodeStatus.AUTONOMOUS = true)
    (hstopped : ∀ m ∈ msgs, ∃ d, decode m = .ok ⟨.STUDENT_STOPPED, d⟩) :
    (ListenSocket.onMessages decode robotState
        (ListenSocket.studentCodeStatusListener StudentCodeStatus self studentCodeStatus)
        msgs).2.length = msgs.length ∧
    (∀ i, i < min msgs.length 5 → ∃ t,
      (ListenSocket.onMessages decode robotState
        (ListenSocket.studentCodeStatusListener StudentCodeStatus self studentCodeStatus)
        msgs).2[i]? = some t ∧ codeStatusUpdates t = []) ∧
    (6 ≤ msgs.length → ∃ t,
      (ListenSocket.onMessages decode robotState
        (ListenSocket.studentCodeStatusListener StudentCodeStatus self studentCodeStatus)
        msgs).2[5]? = some t ∧ codeStatusUpdates t = [robotState.IDLE]) := by
  have hs : (ListenSocket.studentCodeStatusListener StudentCodeStatus self
      studentCodeStatus).statusUpdateTimeout = ((5 : Nat) : Int) := by
    unfold ListenSocket.studentCodeStatusListener
    rcases hstart with h | h <;> simp [h]
  obtain ⟨hl, hi⟩ := ListenSocket.onMessages_stopped decode robotState msgs hstopped 5 _ hs
  refine ⟨hl, ?_, ?_⟩
  · intro i hlt
    have hlen : i < (ListenSocket.onMessages decode robotState
        (ListenSocket.studentCodeStatusListener StudentCodeStatus self studentCodeStatus)
        msgs).2.length := by
      rw [hl]; exact lt_of_lt_of_le hlt (min_le_left _ _)
    refine ⟨_, List.getElem?_eq_getElem hlen, ?_⟩
    have := hi i _ (List.getElem?_eq_getElem hlen)
    rw [this, if_pos (lt_of_lt_of_le hlt (min_le_right _ _))]
  · intro h6
    have hlen : 5 < (ListenSocket.onMessages decode robotState
        (ListenSocket.studentCodeStatusListener StudentCodeStatus self studentCodeStatus)
        msgs).2.length := by
      rw [hl]; omega
    refine ⟨_, List.getElem?_eq_getElem hlen, ?_⟩
    have := hi 5 _ (List.getElem?_eq_getElem hlen)
    simpa using this

/-- Witness of C1: seven STUDENT_STOPPED frames after a TELEOP signal. -/
theorem ListenSocket.idle_suppressed_after_start_witness :
    (ListenSocket.onMessages (fun _ => .ok ⟨.STUDENT_STOPPED, .null⟩)
        ⟨.str "idle", .str "teleop", .str "auto", .str "estop"⟩
        (ListenSocket.studentCodeStatusListener ⟨.num 0, .num 1, .num 2, .num 3⟩
          ListenSocket.new (.num 1))
        [[], [], [], [], [], [], []]).2.length = 7 ∧
    (∀ i, i < min 7 5 → ∃ t,
      (ListenSocket.onMessages (fun _ => .ok ⟨.STUDENT_STOPPED, .null⟩)
        ⟨.str "idle", .str "teleop", .str "auto", .str "estop"⟩
        (ListenSocket.studentCodeStatusListener ⟨.num 0, .num 1, .num 2, .num 3⟩
          ListenSocket.new (.num 1))
        [[], [], [], [], [], [], []]).2[i]? = some t ∧ codeStatusUpdates t = []) ∧
    (6 ≤ 7 → ∃ t,
      (ListenSocket.onMessages (fun _ => .ok ⟨.STUDENT_STOPPED, .null⟩)
        ⟨.str "idle", .str "teleop", .str "auto", .str "estop"⟩
        (ListenSocket.studentCodeStatusListener ⟨.num 0, .num 1, .num 2, .num 3⟩
          ListenSocket.new (.num 1))
        [[], [], [], [], [], [], []]).2[5]? = some t ∧ codeStatusUpdates t = [.str "idle"]) :=
  ListenSocket.idle_suppressed_after_start (fun _ => .ok ⟨.STUDENT_STOPPED, .null⟩)
    ⟨.str "idle", .str "teleop", .str "auto", .str "estop"⟩ ⟨.num 0, .num 1, .num 2, .num 3⟩
    ListenSocket.new (.num 1) [[], [], [], [], [], [], []]
    (Or.inl (by simp [strictEq])) (fun _ _ => ⟨.null, rfl⟩)

/-- The counter of a `ListenSocket` is never negative. -/
theorem ListenSocket.Reachable.counter_nonneg (decode : Buffer → Except JSError RuntimeData)
    (robotState : RobotStateTable) (StudentCodeStatus : StudentCodeStatusTable)
    (self : ListenSocket)
    (h : ListenSocket.Reachable decode robotState StudentCodeStatus self) :
    0 ≤ self.statusUpdateTimeout := by
  induction h with
  | new => simp [ListenSocket.new]
  | signal s v _ ih =>
    unfold ListenSocket.studentCodeStatusListener
    split
    · simp
    · exact ih
  | message s msg _ ih =>
    unfold ListenSocket.onMessage
    cases hd : decode msg with
    | error e => simpa using ih
    | ok decoded =>
      by_cases hr : decoded.robot_state = RuntimeData.State.STUDENT_STOPPED
      · by_cases hp : s.statusUpdateTimeout > 0
        · simp [hr, hp]
          omega
        · simp [hr, hp]
      · simpa [hr] using ih

/-- C7: a frame that decodes to (r, d), handled with a counter c that is not
negative, dispatches infoPerMessage(r) first, then updateCodeStatus(IDLE) exactly
when r is STUDENT_STOPPED and c is 0, then updatePeripherals(d); and when r is
STUDENT_STOPPED and c is positive the counter becomes c - 1 and only the first
and the last action are dispatched. -/
theorem ListenSocket.onMessage_dispatch_order
    (decode : Buffer → Except JSError RuntimeData) (robotState : RobotStateTable)
    (self : ListenSocket) (msg : Buffer) (r : RuntimeData.State) (d : JSVal)
    (hdec : decode msg = .ok ⟨r, d⟩) (hc : 0 ≤ self.statusUpdateTimeout) :
    dispatched (ListenSocket.onMessage decode robotState self msg).2 =
      [Action.infoPerMessage r] ++
      (if r = .STUDENT_STOPPED ∧ self.statusUpdateTimeout = 0
        then [Action.updateCodeStatus robotState.IDLE] else []) ++
      [Action.updatePeripherals d] ∧
    (r = .STUDENT_STOPPED → 0 < self.statusUpdateTimeout →
      (ListenSocket.onMessage decode robotState self msg).1.statusUpdateTimeout =
        self.statusUpdateTimeout - 1 ∧
      dispatched (ListenSocket.onMessage decode robotState self msg).2 =
        [Action.infoPerMessage r, Action.updatePeripherals d]) := by
  unfold ListenSocket.onMessage
  rw [hdec]
  by_cases hr : r = .STUDENT_STOPPED
  · by_cases hp : self.statusUpdateTimeout > 0
    · have hne : self.statusUpdateTimeout ≠ 0 := ne_of_gt hp
      simp [hr, hp, hne, dispatched, Effect.action?]
    · have hz : self.statusUpdateTimeout = 0 := le_antisymm (not_lt.mp hp) hc
      simp [hr, hz, dispatched, Effect.action?]
  · simp [hr, dispatched, Effect.action?]

/-- Witness of C7: a STUDENT_STOPPED frame handled with the counter at 2. -/
theorem ListenSocket.onMessage_dispatch_order_witness :
    dispatched (ListenSocket.onMessage (fun _ => .ok ⟨.STUDENT_STOPPED, .str "sensors"⟩)
        ⟨.num 0, .num 2, .num 1, .num 3⟩ ⟨2⟩ [1, 2, 3]).2 =
      [Action.infoPerMessage .STUDENT_STOPPED] ++
      (if RuntimeData.State.STUDENT_STOPPED = .STUDENT_STOPPED ∧
          (⟨2⟩ : ListenSocket).statusUpdateTimeout = 0
        then [Action.updateCodeStatus (.num 0)] else []) ++
      [Action.updatePeripherals (.str "sensors")] ∧
    (RuntimeData.State.STUDENT_STOPPED = .STUDENT_STOPPED →
      0 < (⟨2⟩ : ListenSocket).statusUpdateTimeout →
      (ListenSocket.onMessage (fun _ => .ok ⟨.STUDENT_STOPPED, .str "sensors"⟩)
        ⟨.num 0, .num 2, .num 1, .num 3⟩ ⟨2⟩ [1, 2, 3]).1.statusUpdateTimeout =
        (⟨2⟩ : ListenSocket).statusUpdateTimeout - 1 ∧
      dispatched (ListenSocket.onMessage (fun _ => .ok ⟨.STUDENT_STOPPED, .str "sensors"⟩)
        ⟨.num 0, .num 2, .num 1, .num 3⟩ ⟨2⟩ [1, 2, 3]).2 =
        [Action.infoPerMessage .STUDENT_STOPPED, Action.updatePeripherals (.str "sensors")]) :=
  ListenSocket.onMessage_dispatch_order (fun _ => .ok ⟨.STUDENT_STOPPED, .str "sensors"⟩)
    ⟨.num 0, .num 2, .num 1, .num 3⟩ ⟨2⟩ [1, 2, 3] .STUDENT_STOPPED (.str "sensors") rfl
    (by decide)

/-! ### TCPSocket -/

theorem dispatched_nil : dispatched [] = [] := rfl

theorem dispatched_cons (e : Effect) (es : List Effect) :
    dispatched (e :: es) =
      match e.action? with
      | some a => a :: dispatched es
      | none => dispatched es := by
  cases h : e.action? <;> simp [dispatched, List.filterMap_cons, h]

theorem dispatched_append (xs ys : List Effect) :
    dispatched (xs ++ ys) = dispatched xs ++ dispatched ys := by
  simp [dispatched]

theorem withoutLogs_nil : withoutLogs [] = [] := rfl

theorem withoutLogs_cons (e : Effect) (es : List Effect) :
    withoutLogs (e :: es) = if e.isLog then withoutLogs es else e :: withoutLogs es := by
  cases h : e.isLog <;> simp [withoutLogs, List.filter_cons, h]

theorem withoutLogs_append (xs ys : List Effect) :
    withoutLogs (xs ++ ys) = withoutLogs xs ++ withoutLogs ys := by
  simp [withoutLogs]

theorem writes_nil : writes [] = [] := rfl

theorem writes_cons (e : Effect) (es : List Effect) :
    writes (e :: es) = if e.isWrite then e :: writes es else writes es := by
  cases h : e.isWrite <;> simp [writes, List.filter_cons, h]

theorem writes_append (xs ys : List Effect) :
    writes (xs ++ ys) = writes xs ++ writes ys := by
  simp [writes]

theorem TCPSocket.dispatched_tryWrite (w : Option JSError) (m : Buffer) (c : Nat) :
    dispatched (TCPSocket.tryWrite w m c) = [] := by
  cases w <;> simp [TCPSocket.tryWrite, dispatched, Effect.action?]

theorem TCPSocket.writes_tryWrite (w : Option JSError) (m : Buffer) (c : Nat) :
    writes (TCPSocket.tryWrite w m c) = [Effect.write m c] := by
  cases w <;> simp [TCPSocket.tryWrite, writes, Effect.isWrite]

theorem TCPSocket.withoutLogs_tryWrite (w : Option JSError) (m : Buffer) (c : Nat) :
    withoutLogs (TCPSocket.tryWrite w m c) = [Effect.write m c] := by
  cases w <;> simp [TCPSocket.tryWrite, withoutLogs, Effect.isLog]

/-- With nothing scheduled, a turn for a due continuation finds none and does
nothing. -/
theorem TCPSocket.run_timeouts_idle (decode : Buffer → Except JSError Notification)
    (encode : Notification → Buffer) (received : Bool) (ws : List (Option JSError)) :
    TCPSocket.run decode encode { received := received, pending := [] }
        (ws.map TCPEvent.timeout) =
      { state := { received := received, pending := [] }, effects := [], raised := none } := by
  induction ws with
  | nil => simp [TCPSocket.run]
  | cons w rest ih => simp [TCPSocket.run, TCPSocket.step, ih]

/-- C2: on a session with nothing scheduled, one tryUpload followed by turns of
the event loop in which no data arrives performs exactly the writes of attempts
0, 1, 2 and 3, each followed by scheduling the next attempt after 1000 ms, then
dispatches notifyChange(ERROR) once; after that nothing is written and nothing
is scheduled, however many further turns there are. -/
theorem TCPSocket.upload_without_ack (decode : Buffer → Except JSError Notification)
    (encode : Notification → Buffer) (received : Bool)
    (w0 w1 w2 w3 w4 : Option JSError) (ws : List (Option JSError)) :
    withoutLogs (TCPSocket.run decode encode { received := received, pending := [] }
        (.NOTIFY_UPLOAD w0 :: .timeout w1 :: .timeout w2 :: .timeout w3 :: .timeout w4 ::
          ws.map TCPEvent.timeout)).effects =
      [Effect.dispatch (.notifyChange .SENT),
       Effect.write (encode ⟨.STUDENT_SENT, ""⟩) 0,
       Effect.setTimeout (encode ⟨.STUDENT_SENT, ""⟩) 1 1000,
       Effect.write (encode ⟨.STUDENT_SENT, ""⟩) 1,
       Effect.setTimeout (encode ⟨.STUDENT_SENT, ""⟩) 2 1000,
       Effect.write (encode ⟨.STUDENT_SENT, ""⟩) 2,
       Effect.setTimeout (encode ⟨.STUDENT_SENT, ""⟩) 3 1000,
       Effect.write (encode ⟨.STUDENT_SENT, ""⟩) 3,
       Effect.setTimeout (encode ⟨.STUDENT_SENT, ""⟩) 4 1000,
       Effect.dispatch (.notifyChange .ERROR)] ∧
    (TCPSocket.run decode encode { received := received, pending := [] }
        (.NOTIFY_UPLOAD w0 :: .timeout w1 :: .timeout w2 :: .timeout w3 :: .timeout w4 ::
          ws.map TCPEvent.timeout)).state.pending = [] ∧
    (TCPSocket.run decode encode { received := received, pending := [] }
        (.NOTIFY_UPLOAD w0 :: .timeout w1 :: .timeout w2 :: .timeout w3 :: .timeout w4 ::
          ws.map TCPEvent.timeout)).raised = none := by
  simp [TCPSocket.run, TCPSocket.step, TCPSocket.tryUpload, TCPSocket.waitRuntimeConfirm,
    TCPSocket.run_timeouts_idle, withoutLogs_cons, withoutLogs_append, withoutLogs_nil,
    TCPSocket.withoutLogs_tryWrite, Effect.isLog]

/-- C3, at the failing input: the acknowledgement arrives after the 4th write,
while the last wait of 1000 ms is pending; the continuation then runs with
count 4, tests the count before the flag, and dispatches notifyChange(ERROR)
after notifyChange(RECEIVED) has been dispatched. -/
theorem TCPSocket.late_ack_still_fails :
    dispatched (TCPSocket.run (fun _ => .ok ⟨.STUDENT_RECEIVED, ""⟩) (fun _ => [8, 1])
        TCPSocket.new
        [.NOTIFY_UPLOAD none, .timeout none, .timeout none, .timeout none,
          .data [8, 2], .timeout none]).effects =
      [Action.notifyChange .SENT, Action.notifyChange .RECEIVED, Action.notifyChange .ERROR] ∧
    (writes (TCPSocket.run (fun _ => .ok ⟨.STUDENT_RECEIVED, ""⟩) (fun _ => [8, 1])
        TCPSocket.new
        [.NOTIFY_UPLOAD none, .timeout none, .timeout none, .timeout none,
          .data [8, 2], .timeout none]).effects).length = 4 := by
  simp [TCPSocket.run, TCPSocket.step, TCPSocket.tryUpload, TCPSocket.waitRuntimeConfirm,
    TCPSocket.onData, TCPSocket.new, TCPSocket.tryWrite, dispatched, writes, Effect.action?,
    Effect.isWrite]

/-- An acknowledgement that arrives before the 4th write stops the loop at its
next attempt: one notifyChange(RECEIVED), no notifyChange(ERROR), and nothing
stays scheduled. -/
theorem TCPSocket.early_ack_succeeds (decode : Buffer → Except JSError Notification)
    (encode : Notification → Buffer) (received : Bool) (bytes : Buffer) (output : String)
    (w0 w : Option JSError) (ws1 ws2 : List (Option JSError))
    (hack : decode bytes = .ok ⟨.STUDENT_RECEIVED, output⟩) (hlen : ws1.length ≤ 2) :
    dispatched (TCPSocket.run decode encode { received := received, pending := [] }
        (.NOTIFY_UPLOAD w0 :: (ws1.map TCPEvent.timeout ++
          .data bytes :: .timeout w :: ws2.map TCPEvent.timeout))).effects =
      [Action.notifyChange .SENT, Action.notifyChange .RECEIVED] ∧
    (TCPSocket.run decode encode { received := received, pending := [] }
        (.NOTIFY_UPLOAD w0 :: (ws1.map TCPEvent.timeout ++
          .data bytes :: .timeout w :: ws2.map TCPEvent.timeout))).state.pending = [] := by
  rcases ws1 with _ | ⟨a1, _ | ⟨a2, _ | ⟨a3, r⟩⟩⟩
  · simp [TCPSocket.run, TCPSocket.step, TCPSocket.tryUpload, TCPSocket.waitRuntimeConfirm,
      TCPSocket.onData, hack, TCPSocket.run_timeouts_idle, dispatched_cons, dispatched_append,
      dispatched_nil, TCPSocket.dispatched_tryWrite, Effect.action?]
  · simp [TCPSocket.run, TCPSocket.step, TCPSocket.tryUpload, TCPSocket.waitRuntimeConfirm,
      TCPSocket.onData, hack, TCPSocket.run_timeouts_idle, dispatched_cons, dispatched_append,
      dispatched_nil, TCPSocket.dispatched_tryWrite, Effect.action?]
  · simp [TCPSocket.run, TCPSocket.step, TCPSocket.tryUpload, TCPSocket.waitRuntimeConfirm,
      TCPSocket.onData, hack, TCPSocket.run_timeouts_idle, dispatched_cons, dispatched_append,
      dispatched_nil, TCPSocket.dispatched_tryWrite, Effect.action?]
  · simp at hlen

/-- C4, at the failing input: a CONSOLE_LOGGING frame arrives after tryUpload,
while the received flag is false.  The handler dispatches updateConsole and no
other action, but it leaves the flag true: the retry loop stops at its next
attempt, after one write, and the upload ends with neither
notifyChange(RECEIVED) nor notifyChange(ERROR). -/
theorem TCPSocket.console_frame_ends_upload_cycle :
    (TCPSocket.tryUpload (fun _ => [8, 1]) TCPSocket.new none).state.received = false ∧
    (TCPSocket.onData (fun _ => .ok ⟨.CONSOLE_LOGGING, "hello"⟩)
      (TCPSocket.tryUpload (fun _ => [8, 1]) TCPSocket.new none).state
      [8, 3]).state.received = true ∧
    dispatched (TCPSocket.onData (fun _ => .ok ⟨.CONSOLE_LOGGING, "hello"⟩)
      (TCPSocket.tryUpload (fun _ => [8, 1]) TCPSocket.new none).state
      [8, 3]).effects = [Action.updateConsole "hello"] ∧
    dispatched (TCPSocket.run (fun _ => .ok ⟨.CONSOLE_LOGGING, "hello"⟩) (fun _ => [8, 1])
        TCPSocket.new
        [.NOTIFY_UPLOAD none, .data [8, 3], .timeout none, .timeout none, .timeout none,
          .timeout none, .timeout none]).effects =
      [Action.notifyChange .SENT, Action.updateConsole "hello"] ∧
    writes (TCPSocket.run (fun _ => .ok ⟨.CONSOLE_LOGGING, "hello"⟩) (fun _ => [8, 1])
        TCPSocket.new
        [.NOTIFY_UPLOAD none, .data [8, 3], .timeout none, .timeout none, .timeout none,
          .timeout none, .timeout none]).effects = [Effect.write [8, 1] 0] ∧
    (TCPSocket.run (fun _ => .ok ⟨.CONSOLE_LOGGING, "hello"⟩) (fun _ => [8, 1])
        TCPSocket.new
        [.NOTIFY_UPLOAD none, .data [8, 3], .timeout none, .timeout none, .timeout none,
          .timeout none, .timeout none]).state.pending = [] := by
  simp [TCPSocket.run, TCPSocket.step, TCPSocket.tryUpload, TCPSocket.waitRuntimeConfirm,
    TCPSocket.onData, TCPSocket.new, TCPSocket.tryWrite, dispatched, writes, Effect.action?,
    Effect.isWrite]

/-- What the data handler does with a frame whose header is CONSOLE_LOGGING and
whose console_output is s: it dispatches exactly one action, updateConsole(s),
raises nothing, leaves what is scheduled as it was, and sets the received
flag. -/
theorem TCPSocket.console_frame (decode : Buffer → Except JSError Notification)
    (self : TCPSocket) (bytes : Buffer) (s : String)
    (hdec : decode bytes = .ok ⟨.CONSOLE_LOGGING, s⟩) :
    dispatched (TCPSocket.onData decode self bytes).effects = [Action.updateConsole s] ∧
    (TCPSocket.onData decode self bytes).raised = none ∧
    (TCPSocket.onData decode self bytes).state = { self with received := true } := by
  simp [TCPSocket.onData, hdec, dispatched, Effect.action?]

/-- C8, at the failing input: bytes that do not decode arrive after tryUpload,
while the received flag is false.  The exception of the decoder leaves the
handler, which has no try, and the flag is left true: the continuation that
was scheduled then finds the flag set and stops, so that the retry loop ends
after one write with nothing dispatched. -/
theorem TCPSocket.undecodable_read_changes_state :
    (TCPSocket.tryUpload (fun _ => [8, 1]) TCPSocket.new none).state.received = false ∧
    (TCPSocket.onData (fun _ => .error "Illegal wire type")
      (TCPSocket.tryUpload (fun _ => [8, 1]) TCPSocket.new none).state
      [255]).raised = some "Illegal wire type" ∧
    (TCPSocket.onData (fun _ => .error "Illegal wire type")
      (TCPSocket.tryUpload (fun _ => [8, 1]) TCPSocket.new none).state
      [255]).state.received = true ∧
    (TCPSocket.run (fun _ => .error "Illegal wire type") (fun _ => [8, 1]) TCPSocket.new
      [.NOTIFY_UPLOAD none, .data [255]]).raised = some "Illegal wire type" ∧
    (TCPSocket.step (fun _ => .error "Illegal wire type") (fun _ => [8, 1])
      (TCPSocket.onData (fun _ => .error "Illegal wire type")
        (TCPSocket.tryUpload (fun _ => [8, 1]) TCPSocket.new none).state [255]).state
      (.timeout none)).effects = [] ∧
    (TCPSocket.step (fun _ => .error "Illegal wire type") (fun _ => [8, 1])
      (TCPSocket.onData (fun _ => .error "Illegal wire type")
        (TCPSocket.tryUpload (fun _ => [8, 1]) TCPSocket.new none).state [255]).state
      (.timeout none)).state.pending = [] := by
  simp [TCPSocket.run, TCPSocket.step, TCPSocket.tryUpload, TCPSocket.waitRuntimeConfirm,
    TCPSocket.onData, TCPSocket.new]

/-- What the data handler does with bytes that do not decode, apart from
letting the exception of the decoder through: it produces no effect, leaves
what is scheduled as it was, and sets the received flag. -/
theorem TCPSocket.undecodable_read (decode : Buffer → Except JSError Notification)
    (self : TCPSocket) (bytes : Buffer) (err : JSError)
    (hdec : decode bytes = .error err) :
    (TCPSocket.onData decode self bytes).effects = [] ∧
    (TCPSocket.onData decode self bytes).raised = some err ∧
    (TCPSocket.onData decode self bytes).state.pending = self.pending ∧
    (TCPSocket.onData decode self bytes).state.received = true := by
  simp [TCPSocket.onData, hdec]

/-- Counterexample to C5: a second tryUpload right after the first one, with no
acknowledgement ever arriving; both retry loops run to their end, eight writes
are made and notifyChange(ERROR) is dispatched twice. -/
theorem TCPSocket.two_uploads_two_failures :
    dispatched (TCPSocket.run (fun _ => .error "no data") (fun _ => [8, 1]) TCPSocket.new
        [.NOTIFY_UPLOAD none, .NOTIFY_UPLOAD none, .timeout none, .timeout none, .timeout none,
          .timeout none, .timeout none, .timeout none, .timeout none, .timeout none]).effects =
      [Action.notifyChange .SENT, Action.notifyChange .SENT,
       Action.notifyChange .ERROR, Action.notifyChange .ERROR] ∧
    writes (TCPSocket.run (fun _ => .error "no data") (fun _ => [8, 1]) TCPSocket.new
        [.NOTIFY_UPLOAD none, .NOTIFY_UPLOAD none, .timeout none, .timeout none, .timeout none,
          .timeout none, .timeout none, .timeout none, .timeout none, .timeout none]).effects =
      [Effect.write [8, 1] 0, Effect.write [8, 1] 0, Effect.write [8, 1] 1, Effect.write [8, 1] 1,
       Effect.write [8, 1] 2, Effect.write [8, 1] 2, Effect.write [8, 1] 3,
       Effect.write [8, 1] 3] := by
  simp [TCPSocket.run, TCPSocket.step, TCPSocket.tryUpload, TCPSocket.waitRuntimeConfirm,
    TCPSocket.new, TCPSocket.tryWrite, dispatched, writes, Effect.action?, Effect.isWrite]

/-- C5, amended: tryUpload does not cancel the continuation that an earlier
cycle has scheduled.  When it is called while that continuation is pending
(after at most 3 of its turns) and no acknowledgement ever arrives, both loops
run to their end: the two requests together make eight writes and dispatch
notifyChange(ERROR) twice, and after that nothing stays scheduled. -/
theorem TCPSocket.overlapping_uploads (decode : Buffer → Except JSError Notification)
    (encode : Notification → Buffer) (received : Bool) (w0 w1 : Option JSError)
    (ws1 ws2 : List (Option JSError)) (h1 : ws1.length ≤ 3)
    (h2 : 8 ≤ ws1.length + ws2.length) :
    dispatched (TCPSocket.run decode encode { received := received, pending := [] }
        (.NOTIFY_UPLOAD w0 :: (ws1.map TCPEvent.timeout ++
          .NOTIFY_UPLOAD w1 :: ws2.map TCPEvent.timeout))).effects =
      [Action.notifyChange .SENT, Action.notifyChange .SENT,
       Action.notifyChange .ERROR, Action.notifyChange .ERROR] ∧
    (writes (TCPSocket.run decode encode { received := received, pending := [] }
        (.NOTIFY_UPLOAD w0 :: (ws1.map TCPEvent.timeout ++
          .NOTIFY_UPLOAD w1 :: ws2.map TCPEvent.timeout))).effects).length = 8 ∧
    (TCPSocket.run decode encode { received := received, pending := [] }
        (.NOTIFY_UPLOAD w0 :: (ws1.map TCPEvent.timeout ++
          .NOTIFY_UPLOAD w1 :: ws2.map TCPEvent.timeout))).state.pending = [] := by
  rcases ws1 with _ | ⟨a1, _ | ⟨a2, _ | ⟨a3, _ | ⟨a4, r1⟩⟩⟩⟩ <;>
  rcases ws2 with _ | ⟨b1, _ | ⟨b2, _ | ⟨b3, _ | ⟨b4, _ | ⟨b5, _ | ⟨b6, _ | ⟨b7, _ |
    ⟨b8, r2⟩⟩⟩⟩⟩⟩⟩⟩ <;>
  first
  | (exfalso; simp at h1 h2; done)
  | simp [TCPSocket.run, TCPSocket.step, TCPSocket.tryUpload, TCPSocket.waitRuntimeConfirm,
      TCPSocket.run_timeouts_idle, dispatched_cons, dispatched_append, dispatched_nil,
      TCPSocket.dispatched_tryWrite, writes_cons, writes_append, writes_nil,
      TCPSocket.writes_tryWrite, Effect.action?, Effect.isWrite]

/-- Witness of C5, amended: the second request comes after two turns of the
first loop. -/
theorem TCPSocket.overlapping_uploads_witness :
    dispatched (TCPSocket.run (fun _ => .error "no data") (fun _ => [8, 1])
        { received := false, pending := [] }
        (.NOTIFY_UPLOAD none :: ([none, none].map TCPEvent.timeout ++
          .NOTIFY_UPLOAD none ::
            [none, none, none, none, none, none].map TCPEvent.timeout))).effects =
      [Action.notifyChange .SENT, Action.notifyChange .SENT,
       Action.notifyChange .ERROR, Action.notifyChange .ERROR] ∧
    (writes (TCPSocket.run (fun _ => .error "no data") (fun _ => [8, 1])
        { received := false, pending := [] }
        (.NOTIFY_UPLOAD none :: ([none, none].map TCPEvent.timeout ++
          .NOTIFY_UPLOAD none ::
            [none, none, none, none, none, none].map TCPEvent.timeout))).effects).length = 8 ∧
    (TCPSocket.run (fun _ => .error "no data") (fun _ => [8, 1])
        { received := false, pending := [] }
        (.NOTIFY_UPLOAD none :: ([none, none].map TCPEvent.timeout ++
          .NOTIFY_UPLOAD none ::
            [none, none, none, none, none, none].map TCPEvent.timeout))).state.pending = [] :=
  TCPSocket.overlapping_uploads (fun _ => .error "no data") (fun _ => [8, 1]) false none none
    [none, none] [none, none, none, none, none, none] (by decide) (by decide)

/-! ### SendSocket -/

/-- C6: after ipAddressListener has handled the address a, the next
sendGamepadMessages hands the socket one datagram, for address a and port 1236,
and no other (none at all when the payload does not build or encode); on a
SendSocket that has handled no address the datagram is for defaults.IPADDRESS
and port 1236; and sendGamepadMessages leaves the state of the SendSocket, so
its destination, as it was. -/
theorem SendSocket.destination (stringToArray : String → List String)
    (robotState : RobotStateTable)
    (StudentCodeStatus : StudentCodeStatusTable) (encode : DawnData → Except JSError Buffer)
    (defaults : Defaults) (self : SendSocket) (a : String) (data : JSVal) :
    datagrams (SendSocket.sendGamepadMessages stringToArray robotState StudentCodeStatus encode
        (SendSocket.ipAddressListener self a) data).effects =
      (match buildProto stringToArray robotState StudentCodeStatus data >>= encode with
        | .ok message => [(message, 1236, a)]
        | .error _ => []) ∧
    datagrams (SendSocket.sendGamepadMessages stringToArray robotState StudentCodeStatus encode
        (SendSocket.new defaults) data).effects =
      (match buildProto stringToArray robotState StudentCodeStatus data >>= encode with
        | .ok message => [(message, 1236, defaults.IPADDRESS)]
        | .error _ => []) ∧
    (SendSocket.sendGamepadMessages stringToArray robotState StudentCodeStatus encode self
      data).state = self := by
  unfold SendSocket.sendGamepadMessages
  cases h : buildProto stringToArray robotState StudentCodeStatus data >>= encode <;>
    simp [datagrams, Effect.datagram?, SendSocket.ipAddressListener, SendSocket.new, SEND_PORT]

/-- Counterexample to C9: a payload whose gamepads hold a null entry makes
buildProto throw on reading `axes`; the exception leaves sendGamepadMessages,
which has logged nothing and sent nothing. -/
theorem SendSocket.null_gamepad_raises :
    (SendSocket.sendGamepadMessages sampleStringToArray
      ⟨.num 0, .num 2, .num 1, .num 3⟩
      ⟨.num 0, .num 1, .num 2, .num 3⟩ (fun _ => .ok [8, 0]) ⟨"192.168.0.100"⟩
      (.obj [("studentCodeStatus", .num 0), ("gamepads", .arr [.null])])).raised =
        some "TypeError: Cannot read property axes of null" ∧
    (SendSocket.sendGamepadMessages sampleStringToArray
      ⟨.num 0, .num 2, .num 1, .num 3⟩
      ⟨.num 0, .num 1, .num 2, .num 3⟩ (fun _ => .ok [8, 0]) ⟨"192.168.0.100"⟩
      (.obj [("studentCodeStatus", .num 0), ("gamepads", .arr [.null])])).effects = [] := by
  have h : buildProto sampleStringToArray
      ⟨.num 0, .num 2, .num 1, .num 3⟩ ⟨.num 0, .num 1, .num 2, .num 3⟩
      (.obj [("studentCodeStatus", .num 0), ("gamepads", .arr [.null])]) =
        .error "TypeError: Cannot read property axes of null" := rfl
  simp [SendSocket.sendGamepadMessages, h, bind, Except.bind]

/-- C9, amended: when building or encoding the message throws, the exception
leaves sendGamepadMessages, nothing is logged and no datagram is sent; when
they succeed nothing is raised and exactly one datagram is sent, to the current
destination on port 1236.  Either way the state is left as it was. -/
theorem SendSocket.sendGamepadMessages_outcome (stringToArray : String → List String)
    (robotState : RobotStateTable)
    (StudentCodeStatus : StudentCodeStatusTable) (encode : DawnData → Except JSError Buffer)
    (self : SendSocket) (data : JSVal) :
    (match buildProto stringToArray robotState StudentCodeStatus data >>= encode with
      | .error err =>
        (SendSocket.sendGamepadMessages stringToArray robotState StudentCodeStatus encode self
          data).raised = some err ∧
        (SendSocket.sendGamepadMessages stringToArray robotState StudentCodeStatus encode self
          data).effects = []
      | .ok message =>
        (SendSocket.sendGamepadMessages stringToArray robotState StudentCodeStatus encode self
          data).raised = none ∧
        datagrams (SendSocket.sendGamepadMessages stringToArray robotState StudentCodeStatus
          encode self data).effects = [(message, 1236, self.runtimeIP)]) ∧
    (SendSocket.sendGamepadMessages stringToArray robotState StudentCodeStatus encode self
      data).state = self := by
  unfold SendSocket.sendGamepadMessages
  cases h : buildProto stringToArray robotState StudentCodeStatus data >>= encode <;>
    simp [datagrams, Effect.datagram?, SEND_PORT]

/-! ### close -/

/-- Counterexample to C10: when the close of the listening UDP socket throws,
Ansible.close calls the close of the ListenSocket only; neither the SendSocket
nor the TCPServer is closed. -/
theorem Ansible.close_stops_at_first_failure :
    (Ansible.close
      (fun c => if c = .listenSocketClose then some "ERR_SOCKET_DGRAM_NOT_RUNNING" else none)
      (Ansible.setup true)).state = [Conn.ListenSocket] ∧
    (Ansible.close
      (fun c => if c = .listenSocketClose then some "ERR_SOCKET_DGRAM_NOT_RUNNING" else none)
      (Ansible.setup true)).effects = [Effect.call .listenSocketClose] ∧
    (Ansible.close
      (fun c => if c = .listenSocketClose then some "ERR_SOCKET_DGRAM_NOT_RUNNING" else none)
      (Ansible.setup true)).raised = some "ERR_SOCKET_DGRAM_NOT_RUNNING" := by
  simp [Ansible.close, Ansible.setup, Conn.close, ListenSocket.close, runCalls]

/-- C10, amended: Ansible.close calls the close of the ListenSocket, of the
SendSocket and of the TCPServer in this order and stops at the first that
raises, whose exception leaves Ansible.close: the close of a connection is
called exactly when the close of no earlier connection has raised, so all
three are called exactly when neither the ListenSocket nor the SendSocket
raises; what Ansible.close raises is what the first failing close raises, and
nothing when none fails; and its effects are those of the closes called, in
order. -/
theorem Ansible.close_calls (throws : CloseCall → Option JSError) (session : Bool) :
    (Ansible.close throws (Ansible.setup session)).state =
      (if (ListenSocket.close throws).raised.isSome then [Conn.ListenSocket]
       else if (SendSocket.close throws).raised.isSome then [Conn.ListenSocket, Conn.SendSocket]
       else [Conn.ListenSocket, Conn.SendSocket, Conn.TCPServer session]) ∧
    (Ansible.close throws (Ansible.setup session)).raised =
      (match (ListenSocket.close throws).raised with
       | some err => some err
       | none =>
         match (SendSocket.close throws).raised with
         | some err => some err
         | none => (TCPServer.close throws session).raised) ∧
    (Ansible.close throws (Ansible.setup session)).effects =
      (if (ListenSocket.close throws).raised.isSome then (ListenSocket.close throws).effects
       else if (SendSocket.close throws).raised.isSome then
         (ListenSocket.close throws).effects ++ (SendSocket.close throws).effects
       else (ListenSocket.close throws).effects ++ (SendSocket.close throws).effects ++
         (TCPServer.close throws session).effects) := by
  simp only [Ansible.close, Ansible.setup, Conn.close]
  cases hl : (ListenSocket.close throws).raised with
  | some e => simp
  | none =>
    cases hs : (SendSocket.close throws).raised with
    | some e => simp
    | none =>
      cases ht : (TCPServer.close throws session).raised <;> simp

/-! ### ListenSocket: datagrams that do not decode, and the counter -/

/-- C11: a datagram that fails to decode is caught inside the handler, which
returns after writing two entries to the log: no action is dispatched, the
state of the ListenSocket, so its counter, is left as it was, and whatever
datagrams follow are handled as if the malformed one had never arrived. -/
theorem ListenSocket.onMessage_undecodable (decode : Buffer → Except JSError RuntimeData)
    (robotState : RobotStateTable) (self : ListenSocket) (msg : Buffer) (err : JSError)
    (hdec : decode msg = .error err) :
    (ListenSocket.onMessage decode robotState self msg).2 =
      [Effect.log "Error decoding UDP", Effect.log err] ∧
    dispatched (ListenSocket.onMessage decode robotState self msg).2 = [] ∧
    (ListenSocket.onMessage decode robotState self msg).1 = self ∧
    (∀ next : Buffer,
      ListenSocket.onMessage decode robotState
        (ListenSocket.onMessage decode robotState self msg).1 next =
      ListenSocket.onMessage decode robotState self next) ∧
    (∀ rest : List Buffer,
      (ListenSocket.onMessages decode robotState self (msg :: rest)).1 =
        (ListenSocket.onMessages decode robotState self rest).1 ∧
      (ListenSocket.onMessages decode robotState self (msg :: rest)).2 =
        [Effect.log "Error decoding UDP", Effect.log err] ::
          (ListenSocket.onMessages decode robotState self rest).2) := by
  have h : ListenSocket.onMessage decode robotState self msg =
      (self, [Effect.log "Error decoding UDP", Effect.log err]) := by
    unfold ListenSocket.onMessage
    rw [hdec]
  refine ⟨by rw [h], by rw [h]; simp [dispatched, Effect.action?], by rw [h], ?_, ?_⟩
  · intro next
    rw [h]
  · intro rest
    simp [ListenSocket.onMessages, h]

/-- Witness of C11: a datagram that does not decode arrives while the counter
is at 3; the decoder accepts only datagrams that start with the byte 8. -/
theorem ListenSocket.onMessage_undecodable_witness :
    (ListenSocket.onMessage
        (fun m => if m.head? = some 8 then .ok ⟨.STUDENT_STOPPED, .null⟩ else .error "bad tag")
        ⟨.num 0, .num 2, .num 1, .num 3⟩ ⟨3⟩ [255]).2 =
      [Effect.log "Error decoding UDP", Effect.log "bad tag"] ∧
    dispatched (ListenSocket.onMessage
        (fun m => if m.head? = some 8 then .ok ⟨.STUDENT_STOPPED, .null⟩ else .error "bad tag")
        ⟨.num 0, .num 2, .num 1, .num 3⟩ ⟨3⟩ [255]).2 = [] ∧
    (ListenSocket.onMessage
        (fun m => if m.head? = some 8 then .ok ⟨.STUDENT_STOPPED, .null⟩ else .error "bad tag")
        ⟨.num 0, .num 2, .num 1, .num 3⟩ ⟨3⟩ [255]).1 = ⟨3⟩ ∧
    (∀ next : Buffer,
      ListenSocket.onMessage
        (fun m => if m.head? = some 8 then .ok ⟨.STUDENT_STOPPED, .null⟩ else .error "bad tag")
        ⟨.num 0, .num 2, .num 1, .num 3⟩
        (ListenSocket.onMessage
          (fun m => if m.head? = some 8 then .ok ⟨.STUDENT_STOPPED, .null⟩
            else .error "bad tag")
          ⟨.num 0, .num 2, .num 1, .num 3⟩ ⟨3⟩ [255]).1 next =
      ListenSocket.onMessage
        (fun m => if m.head? = some 8 then .ok ⟨.STUDENT_STOPPED, .null⟩ else .error "bad tag")
        ⟨.num 0, .num 2, .num 1, .num 3⟩ ⟨3⟩ next) ∧
    (∀ rest : List Buffer,
      (ListenSocket.onMessages
        (fun m => if m.head? = some 8 then .ok ⟨.STUDENT_STOPPED, .null⟩ else .error "bad tag")
        ⟨.num 0, .num 2, .num 1, .num 3⟩ ⟨3⟩ ([255] :: rest)).1 =
        (ListenSocket.onMessages
          (fun m => if m.head? = some 8 then .ok ⟨.STUDENT_STOPPED, .null⟩
            else .error "bad tag")
          ⟨.num 0, .num 2, .num 1, .num 3⟩ ⟨3⟩ rest).1 ∧
      (ListenSocket.onMessages
        (fun m => if m.head? = some 8 then .ok ⟨.STUDENT_STOPPED, .null⟩ else .error "bad tag")
        ⟨.num 0, .num 2, .num 1, .num 3⟩ ⟨3⟩ ([255] :: rest)).2 =
        [Effect.log "Error decoding UDP", Effect.log "bad tag"] ::
          (ListenSocket.onMessages
            (fun m => if m.head? = some 8 then .ok ⟨.STUDENT_STOPPED, .null⟩
              else .error "bad tag")
            ⟨.num 0, .num 2, .num 1, .num 3⟩ ⟨3⟩ rest).2) :=
  ListenSocket.onMessage_undecodable
    (fun m => if m.head? = some 8 then .ok ⟨.STUDENT_STOPPED, .null⟩ else .error "bad tag")
    ⟨.num 0, .num 2, .num 1, .num 3⟩ ⟨3⟩ [255] "bad tag" (by simp)

/-- The counter of a `ListenSocket` is never above 5. -/
theorem ListenSocket.Reachable.counter_le (decode : Buffer → Except JSError RuntimeData)
    (robotState : RobotStateTable) (StudentCodeStatus : StudentCodeStatusTable)
    (self : ListenSocket)
    (h : ListenSocket.Reachable decode robotState StudentCodeStatus self) :
    self.statusUpdateTimeout ≤ 5 := by
  induction h with
  | new => simp [ListenSocket.new]
  | signal s v _ ih =>
    unfold ListenSocket.studentCodeStatusListener
    split
    · simp
    · exact ih
  | message s msg _ ih =>
    unfold ListenSocket.onMessage
    cases hd : decode msg with
    | error e => simpa using ih
    | ok decoded =>
      by_cases hr : decoded.robot_state = RuntimeData.State.STUDENT_STOPPED
      · by_cases hp : s.statusUpdateTimeout > 0
        · simp [hr, hp]
          omega
        · simp [hr, hp]
      · simpa [hr] using ih

/-- C12: in every state reached from the constructor by signals of any status
and datagrams of any content, the counter is an integer from 0 to 5; a signal
sets it to 5 when its status is TELEOP or AUTONOMOUS and leaves it as it is for
any other status; a datagram lowers it by exactly one when it decodes to
STUDENT_STOPPED and the counter is positive, and leaves it as it is when it
decodes to STUDENT_STOPPED with the counter at 0, decodes to another robot
state, or does not decode. -/
theorem ListenSocket.counter_invariant (decode : Buffer → Except JSError RuntimeData)
    (robotState : RobotStateTable) (StudentCodeStatus : StudentCodeStatusTable)
    (self : ListenSocket)
    (h : ListenSocket.Reachable decode robotState StudentCodeStatus self) :
    (0 ≤ self.statusUpdateTimeout ∧ self.statusUpdateTimeout ≤ 5) ∧
    (∀ studentCodeStatus : JSVal,
      (ListenSocket.studentCodeStatusListener StudentCodeStatus self
        studentCodeStatus).statusUpdateTimeout =
      if strictEq studentCodeStatus StudentCodeStatus.TELEOP = true ∨
          strictEq studentCodeStatus StudentCodeStatus.AUTONOMOUS = true
        then 5 else self.statusUpdateTimeout) ∧
    (∀ msg : Buffer,
      (ListenSocket.onMessage decode robotState self msg).1.statusUpdateTimeout =
      match decode msg with
      | .ok decoded =>
        if decoded.robot_state = RuntimeData.State.STUDENT_STOPPED ∧
            0 < self.statusUpdateTimeout
          then self.statusUpdateTimeout - 1 else self.statusUpdateTimeout
      | .error _ => self.statusUpdateTimeout) := by
  have h0 := ListenSocket.Reachable.counter_nonneg decode robotState StudentCodeStatus self h
  have h5 := ListenSocket.Reachable.counter_le decode robotState StudentCodeStatus self h
  refine ⟨⟨h0, h5⟩, ?_, ?_⟩
  · intro v
    unfold ListenSocket.studentCodeStatusListener
    by_cases h1 : strictEq v StudentCodeStatus.TELEOP = true
    · simp [h1]
    · by_cases h2 : strictEq v StudentCodeStatus.AUTONOMOUS = true
      · simp [h2]
      · simp [h1, h2]
  · intro msg
    unfold ListenSocket.onMessage
    cases hd : decode msg with
    | error e => simp
    | ok decoded =>
      by_cases hr : decoded.robot_state = RuntimeData.State.STUDENT_STOPPED
      · by_cases hp : self.statusUpdateTimeout > 0
        · simp [hr, hp]
        · have hz : self.statusUpdateTimeout = 0 := le_antisymm (not_lt.mp hp) h0
          simp [hr, hz]
      · simp [hr]

/-- Witness of C12: the state reached by a TELEOP signal followed by one
STUDENT_STOPPED frame, where the counter is at 4. -/
theorem ListenSocket.counter_invariant_witness :
    ListenSocket.Reachable (fun _ => .ok ⟨.STUDENT_STOPPED, .null⟩)
      ⟨.num 0, .num 2, .num 1, .num 3⟩ ⟨.num 0, .num 1, .num 2, .num 3⟩ ⟨4⟩ ∧
    ((0 ≤ (⟨4⟩ : ListenSocket).statusUpdateTimeout ∧
        (⟨4⟩ : ListenSocket).statusUpdateTimeout ≤ 5) ∧
    (∀ studentCodeStatus : JSVal,
      (ListenSocket.studentCodeStatusListener ⟨.num 0, .num 1, .num 2, .num 3⟩ ⟨4⟩
        studentCodeStatus).statusUpdateTimeout =
      if strictEq studentCodeStatus
            (⟨.num 0, .num 1, .num 2, .num 3⟩ : StudentCodeStatusTable).TELEOP = true ∨
          strictEq studentCodeStatus
            (⟨.num 0, .num 1, .num 2, .num 3⟩ : StudentCodeStatusTable).AUTONOMOUS = true
        then 5 else (⟨4⟩ : ListenSocket).statusUpdateTimeout) ∧
    (∀ msg : Buffer,
      (ListenSocket.onMessage (fun _ => .ok ⟨.STUDENT_STOPPED, .null⟩)
        ⟨.num 0, .num 2, .num 1, .num 3⟩ ⟨4⟩ msg).1.statusUpdateTimeout =
      match (fun _ => .ok ⟨.STUDENT_STOPPED, .null⟩ : Buffer → Except JSError RuntimeData)
          msg with
      | .ok decoded =>
        if decoded.robot_state = RuntimeData.State.STUDENT_STOPPED ∧
            0 < (⟨4⟩ : ListenSocket).statusUpdateTimeout
          then (⟨4⟩ : ListenSocket).statusUpdateTimeout - 1
          else (⟨4⟩ : ListenSocket).statusUpdateTimeout
      | .error _ => (⟨4⟩ : ListenSocket).statusUpdateTimeout)) :=
  have hr : ListenSocket.Reachable (fun _ => .ok ⟨.STUDENT_STOPPED, .null⟩)
      ⟨.num 0, .num 2, .num 1, .num 3⟩ ⟨.num 0, .num 1, .num 2, .num 3⟩ ⟨4⟩ := by
    have h := @ListenSocket.Reachable.message (fun _ => .ok ⟨.STUDENT_STOPPED, .null⟩)
      ⟨.num 0, .num 2, .num 1, .num 3⟩ ⟨.num 0, .num 1, .num 2, .num 3⟩ _ [8]
      (ListenSocket.Reachable.signal _ (.num 1) ListenSocket.Reachable.new)
    simpa [ListenSocket.onMessage, ListenSocket.studentCodeStatusListener, ListenSocket.new,
      strictEq] using h
  ⟨hr, ListenSocket.counter_invariant (fun _ => .ok ⟨.STUDENT_STOPPED, .null⟩)
    ⟨.num 0, .num 2, .num 1, .num 3⟩ ⟨.num 0, .num 1, .num 2, .num 3⟩ ⟨4⟩ hr⟩

/-! ### buildProto -/

theorem mapM_ok {α β ε : Type} (f : α → Except ε β) (g : α → β) (l : List α)
    (h : ∀ x ∈ l, f x = .ok (g x)) : l.mapM f = .ok (l.map g) := by
  rw [← List.mapM'_eq_mapM]
  induction l with
  | nil => rfl
  | cons a rest ih =>
    have ha := h a (List.mem_cons_self _ _)
    have hrest := ih (fun x hx => h x (List.mem_cons_of_mem _ hx))
    simp only [List.mapM'_cons, ha, hrest, List.map_cons]
    rfl

theorem mapM_error {α β ε : Type} (f : α → Except ε β) (l : List α)
    (h : ∃ x ∈ l, ∃ e, f x = .error e) : ∃ e, l.mapM f = .error e := by
  rw [← List.mapM'_eq_mapM]
  induction l with
  | nil =>
    obtain ⟨x, hx, _⟩ := h
    cases hx
  | cons a rest ih =>
    cases hfa : f a with
    | error e => exact ⟨e, by simp only [List.mapM'_cons, hfa]; rfl⟩
    | ok b =>
      obtain ⟨x, hx, e, he⟩ := h
      rcases List.mem_cons.mp hx with hxa | hxr
      · subst hxa
        rw [hfa] at he
        cases he
      · obtain ⟨e2, he2⟩ := ih ⟨x, hxr, e, he⟩
        exact ⟨e2, by simp only [List.mapM'_cons, hfa, he2]; rfl⟩

theorem JSVal.get_eq_prop (value : JSVal) (key : String) (h : value.isNullish = false) :
    value.get key = .ok (value.prop key) := by
  cases value <;> simp_all [JSVal.get, JSVal.prop, JSVal.isNullish]

theorem JSVal.get_nullish (value : JSVal) (key : String) (h : value.isNullish = true) :
    ∃ e, value.get key = .error e := by
  cases value <;> simp_all [JSVal.get, JSVal.isNullish]

theorem DawnData.Gamepad.verifyAxis_ok (a : JSVal)
    (h : DawnData.Gamepad.acceptsAxis a = true) : DawnData.Gamepad.verifyAxis a = .ok a := by
  cases a <;> simp_all [DawnData.Gamepad.acceptsAxis, DawnData.Gamepad.verifyAxis]

theorem DawnData.Gamepad.verifyAxis_error (a : JSVal)
    (h : DawnData.Gamepad.acceptsAxis a = false) :
    ∃ e, DawnData.Gamepad.verifyAxis a = .error e := by
  cases a <;> simp_all [DawnData.Gamepad.acceptsAxis, DawnData.Gamepad.verifyAxis]

/-- What the constructor of `Gamepad` returns for values it takes. -/
theorem DawnData.Gamepad.new_ok (index : JSVal) (axes : List JSVal) (buttons : List Bool)
    (hi : DawnData.Gamepad.acceptsIndex index = true)
    (ha : ∀ a ∈ axes, DawnData.Gamepad.acceptsAxis a = true) :
    DawnData.Gamepad.new index axes buttons =
      .ok { index := DawnData.Gamepad.storedIndex index, axes := axes, buttons := buttons } := by
  have hax : axes.mapM DawnData.Gamepad.verifyAxis = .ok axes := by
    have := mapM_ok DawnData.Gamepad.verifyAxis id axes
      (fun x hx => DawnData.Gamepad.verifyAxis_ok x (ha x hx))
    simpa using this
  unfold DawnData.Gamepad.new
  cases index <;>
    simp_all [DawnData.Gamepad.acceptsIndex, DawnData.Gamepad.verifyIndex,
      DawnData.Gamepad.storedIndex, bind, Except.bind, pure, Except.pure]

/-- The constructor of `Gamepad` throws on an index or an entry of the axes it
does not take. -/
theorem DawnData.Gamepad.new_error (index : JSVal) (axes : List JSVal) (buttons : List Bool)
    (h : DawnData.Gamepad.acceptsIndex index = false ∨
      ∃ a ∈ axes, DawnData.Gamepad.acceptsAxis a = false) :
    ∃ e, DawnData.Gamepad.new index axes buttons = .error e := by
  unfold DawnData.Gamepad.new
  by_cases hi : DawnData.Gamepad.acceptsIndex index = true
  · have hx : ∃ a ∈ axes, DawnData.Gamepad.acceptsAxis a = false := by
      rcases h with h | h
      · rw [hi] at h
        cases h
      · exact h
    obtain ⟨a, ha, hacc⟩ := hx
    obtain ⟨e, he⟩ := mapM_error DawnData.Gamepad.verifyAxis axes
      ⟨a, ha, DawnData.Gamepad.verifyAxis_error a hacc⟩
    cases index <;>
      simp_all [DawnData.Gamepad.acceptsIndex, DawnData.Gamepad.verifyIndex, bind,
        Except.bind, pure, Except.pure]
  · cases index <;>
      simp_all [DawnData.Gamepad.acceptsIndex, DawnData.Gamepad.verifyIndex, bind,
        Except.bind, pure, Except.pure]

/-- The gamepad that the callback of `buildProto` returns for a value it can
build one from. -/
theorem buildProto.gamepad_ok (stringToArray : String → List String) (gamepad : JSVal)
    (h : buildProto.acceptsGamepad stringToArray gamepad = true) :
    buildProto.gamepad stringToArray gamepad =
      .ok { index := DawnData.Gamepad.storedIndex (gamepad.prop "index"),
            axes := toArray stringToArray (gamepad.prop "axes"),
            buttons := (toArray stringToArray (gamepad.prop "buttons")).map Boolean } := by
  simp only [buildProto.acceptsGamepad, Bool.and_eq_true, Bool.not_eq_true',
    List.all_eq_true] at h
  obtain ⟨⟨hn, hi⟩, ha⟩ := h
  unfold buildProto.gamepad
  simp only [JSVal.get_eq_prop gamepad _ hn, bind, Except.bind]
  exact DawnData.Gamepad.new_ok _ _ _ hi ha

/-- The callback of `buildProto` throws on every other value. -/
theorem buildProto.gamepad_error (stringToArray : String → List String) (gamepad : JSVal)
    (h : buildProto.acceptsGamepad stringToArray gamepad = false) :
    ∃ e, buildProto.gamepad stringToArray gamepad = .error e := by
  unfold buildProto.gamepad
  by_cases hn : gamepad.isNullish = true
  · obtain ⟨e, he⟩ := JSVal.get_nullish gamepad "axes" hn
    exact ⟨e, by simp only [he, bind, Except.bind]⟩
  · have hn2 : gamepad.isNullish = false := by simpa using hn
    simp only [JSVal.get_eq_prop gamepad _ hn2, bind, Except.bind]
    apply DawnData.Gamepad.new_error
    by_cases hi : DawnData.Gamepad.acceptsIndex (gamepad.prop "index") = true
    · right
      simp only [buildProto.acceptsGamepad, hn2, hi, Bool.not_false, Bool.true_and,
        List.all_eq_false] at h
      obtain ⟨a, ha, hacc⟩ := h
      exact ⟨a, ha, by simpa using hacc⟩
    · left
      simpa using hi

/-- The frame that `buildProto` returns for a payload it can build one from. -/
theorem buildProto_ok (stringToArray : String → List String) (robotState : RobotStateTable)
    (StudentCodeStatus : StudentCodeStatusTable) (data : JSVal)
    (h : buildProto.accepts stringToArray data = true) :
    buildProto stringToArray robotState StudentCodeStatus data =
      .ok { student_code_status :=
              if strictEq (data.prop "studentCodeStatus") robotState.TELEOP then
                StudentCodeStatus.TELEOP
              else if strictEq (data.prop "studentCodeStatus") robotState.AUTONOMOUS then
                StudentCodeStatus.AUTONOMOUS
              else if strictEq (data.prop "studentCodeStatus") robotState.ESTOP then
                StudentCodeStatus.ESTOP
              else StudentCodeStatus.IDLE,
            gamepads := (toArray stringToArray (data.prop "gamepads")).map (fun g =>
              { index := DawnData.Gamepad.storedIndex (g.prop "index"),
                axes := toArray stringToArray (g.prop "axes"),
                buttons := (toArray stringToArray (g.prop "buttons")).map Boolean }) } := by
  simp only [buildProto.accepts, Bool.and_eq_true, Bool.not_eq_true', List.all_eq_true] at h
  obtain ⟨hn, hg⟩ := h
  have hm := mapM_ok (buildProto.gamepad stringToArray)
    (fun g => ({ index := DawnData.Gamepad.storedIndex (g.prop "index"),
                 axes := toArray stringToArray (g.prop "axes"),
                 buttons := (toArray stringToArray (g.prop "buttons")).map Boolean } :
      DawnData.Gamepad))
    (toArray stringToArray (data.prop "gamepads"))
    (fun g hx => buildProto.gamepad_ok stringToArray g (hg g hx))
  unfold buildProto
  simp only [JSVal.get_eq_prop data _ hn, bind, Except.bind, hm]
  rfl

/-- The function `buildProto` throws on every other payload. -/
theorem buildProto_error (stringToArray : String → List String) (robotState : RobotStateTable)
    (StudentCodeStatus : StudentCodeStatusTable) (data : JSVal)
    (h : buildProto.accepts stringToArray data = false) :
    ∃ e, buildProto stringToArray robotState StudentCodeStatus data = .error e := by
  unfold buildProto
  by_cases hn : data.isNullish = true
  · obtain ⟨e, he⟩ := JSVal.get_nullish data "studentCodeStatus" hn
    exact ⟨e, by simp only [he, bind, Except.bind]⟩
  · have hn2 : data.isNullish = false := by simpa using hn
    simp only [buildProto.accepts, hn2, Bool.not_false, Bool.true_and, List.all_eq_false] at h
    obtain ⟨g, hg, hacc⟩ := h
    obtain ⟨e, he⟩ := mapM_error (buildProto.gamepad stringToArray)
      (toArray stringToArray (data.prop "gamepads"))
      ⟨g, hg, buildProto.gamepad_error stringToArray g (by simpa using hacc)⟩
    exact ⟨e, by simp only [JSVal.get_eq_prop data _ hn2, bind, Except.bind, he]⟩

/-- Two values that are both `===` to a third are `===` to each other. -/
theorem strictEq_of_both (v a b : JSVal) (ha : strictEq v a = true) (hb : strictEq v b = true) :
    strictEq a b = true := by
  cases v <;> cases a <;> simp [strictEq] at ha <;> cases b <;> simp [strictEq] at hb ⊢
  all_goals simp_all

/-- Counterexample to C13: a gamepad whose index is 1.5 makes buildProto throw,
so no frame is returned; an index of 4294967301 is stored as 5; and a gamepad
without index gets the index null. -/
theorem buildProto_index_checked :
    buildProto sampleStringToArray sampleRobotState sampleStudentCodeStatus
      (.obj [("gamepads", .arr [.obj [("index", .num (3 / 2)), ("axes", .arr [.num 1]),
        ("buttons", .arr [.bool true])]])]) =
      .error "Illegal value for index: number (not an integer)" ∧
    buildProto sampleStringToArray sampleRobotState sampleStudentCodeStatus
      (.obj [("gamepads", .arr [.obj [("index", .num 4294967301), ("axes", .arr [.num 1]),
        ("buttons", .arr [.bool true])]])]) =
      .ok { student_code_status := .num 0,
            gamepads := [{ index := .num 5, axes := [.num 1], buttons := [true] }] } ∧
    buildProto sampleStringToArray sampleRobotState sampleStudentCodeStatus
      (.obj [("gamepads", .arr [.obj [("axes", .arr [.num 1]),
        ("buttons", .arr [.bool true])]])]) =
      .ok { student_code_status := .num 0,
            gamepads := [{ index := .null, axes := [.num 1], buttons := [true] }] } := by
  refine ⟨?_, rfl, rfl⟩
  have hden : ¬ ((3 / 2 : ℚ).den = 1) := by norm_num
  have hv : DawnData.Gamepad.verifyIndex (.num (3 / 2)) =
      .error "Illegal value for index: number (not an integer)" := by
    simp only [DawnData.Gamepad.verifyIndex, if_neg hden]
  have hg : buildProto.gamepad sampleStringToArray
      (.obj [("index", .num (3 / 2)), ("axes", .arr [.num 1]), ("buttons", .arr [.bool true])]) =
      .error "Illegal value for index: number (not an integer)" := by
    simp only [buildProto.gamepad, JSVal.get, List.lookup, DawnData.Gamepad.new, bind,
      Except.bind, hv]
    simp [hv]
  simp only [buildProto, JSVal.get, List.lookup, toArray, bind, Except.bind]
  rw [← List.mapM'_eq_mapM]
  simp [List.mapM'_cons, hg, bind, Except.bind]

/-- C13, amended: buildProto returns a frame exactly for the payloads that are
neither `undefined` nor `null` and whose gamepads are neither, have an index
that is missing, null, NaN or an integer, and have only numbers as axes; for
every other payload it throws.  The student_code_status of the frame is TELEOP,
AUTONOMOUS or ESTOP exactly when data.studentCodeStatus is `===` to the member
of robotState of that name, and IDLE exactly when it is none of the three, as
when it is missing.  The gamepads of the frame are as many as those of
data.gamepads, in the same order; each carries the index of the input gamepad
as the constructor stores it (null for a missing one, reduced with `| 0` when
above 4294967295, unchanged otherwise), the entries of its axes unchanged, and
for each entry of its buttons the truthiness of that entry; when data.gamepads
is missing the list is empty. -/
theorem buildProto_frame (stringToArray : String → List String)
    (robotState : RobotStateTable) (StudentCodeStatus : StudentCodeStatusTable) (data : JSVal)
    (hrs : robotState.Distinct) (hscs : StudentCodeStatus.Distinct) :
    (buildProto.accepts stringToArray data = false →
      ∃ err : JSError,
        buildProto stringToArray robotState StudentCodeStatus data = .error err) ∧
    (buildProto.accepts stringToArray data = true →
      ∃ frame : DawnData,
        buildProto stringToArray robotState StudentCodeStatus data = .ok frame ∧
        (frame.student_code_status = StudentCodeStatus.TELEOP ↔
          strictEq (data.prop "studentCodeStatus") robotState.TELEOP = true) ∧
        (frame.student_code_status = StudentCodeStatus.AUTONOMOUS ↔
          strictEq (data.prop "studentCodeStatus") robotState.AUTONOMOUS = true) ∧
        (frame.student_code_status = StudentCodeStatus.ESTOP ↔
          strictEq (data.prop "studentCodeStatus") robotState.ESTOP = true) ∧
        (frame.student_code_status = StudentCodeStatus.IDLE ↔
          (strictEq (data.prop "studentCodeStatus") robotState.TELEOP = false ∧
           strictEq (data.prop "studentCodeStatus") robotState.AUTONOMOUS = false ∧
           strictEq (data.prop "studentCodeStatus") robotState.ESTOP = false)) ∧
        (data.prop "studentCodeStatus" = .undefined →
          frame.student_code_status = StudentCodeStatus.IDLE) ∧
        frame.gamepads.length = (toArray stringToArray (data.prop "gamepads")).length ∧
        (∀ (i : Nat) (g : JSVal),
          (toArray stringToArray (data.prop "gamepads"))[i]? = some g →
          ∃ out : DawnData.Gamepad, frame.gamepads[i]? = some out ∧
            out.index = DawnData.Gamepad.storedIndex (g.prop "index") ∧
            out.axes = toArray stringToArray (g.prop "axes") ∧
            out.buttons = (toArray stringToArray (g.prop "buttons")).map Boolean) ∧
        (∀ gs : List JSVal, data.prop "gamepads" = .arr gs →
          frame.gamepads.length = gs.length ∧
          ∀ (i : Nat) (g : JSVal), gs[i]? = some g →
            ∃ out : DawnData.Gamepad, frame.gamepads[i]? = some out ∧
              out.index = DawnData.Gamepad.storedIndex (g.prop "index") ∧
              (∀ as : List JSVal, g.prop "axes" = .arr as → out.axes = as) ∧
              (∀ bs : List JSVal, g.prop "buttons" = .arr bs →
                out.buttons.length = bs.length ∧
                ∀ (j : Nat) (b : JSVal), bs[j]? = some b →
                  out.buttons[j]? = some (Boolean b))) ∧
        (data.prop "gamepads" = .undefined → frame.gamepads = [])) := by
  refine ⟨buildProto_error stringToArray robotState StudentCodeStatus data, ?_⟩
  intro hacc
  obtain ⟨r12, r13, r23, u1, u2, u3⟩ := hrs
  obtain ⟨s1, s2, s3, s4, s5, s6⟩ := hscs
  have n12 : ¬ (strictEq (data.prop "studentCodeStatus") robotState.TELEOP = true ∧
      strictEq (data.prop "studentCodeStatus") robotState.AUTONOMOUS = true) := by
    rintro ⟨a, b⟩
    have := strictEq_of_both _ _ _ a b
    simp [r12] at this
  have n13 : ¬ (strictEq (data.prop "studentCodeStatus") robotState.TELEOP = true ∧
      strictEq (data.prop "studentCodeStatus") robotState.ESTOP = true) := by
    rintro ⟨a, b⟩
    have := strictEq_of_both _ _ _ a b
    simp [r13] at this
  have n23 : ¬ (strictEq (data.prop "studentCodeStatus") robotState.AUTONOMOUS = true ∧
      strictEq (data.prop "studentCodeStatus") robotState.ESTOP = true) := by
    rintro ⟨a, b⟩
    have := strictEq_of_both _ _ _ a b
    simp [r23] at this
  have hmap : ∀ (l : List JSVal) (i : Nat) (g : JSVal), l[i]? = some g →
      (l.map (fun g : JSVal =>
        ({ index := DawnData.Gamepad.storedIndex (g.prop "index"),
           axes := toArray stringToArray (g.prop "axes"),
           buttons := (toArray stringToArray (g.prop "buttons")).map Boolean } :
          DawnData.Gamepad)))[i]? =
        some { index := DawnData.Gamepad.storedIndex (g.prop "index"),
               axes := toArray stringToArray (g.prop "axes"),
               buttons := (toArray stringToArray (g.prop "buttons")).map Boolean } := by
    intro l i g hg
    simp [List.getElem?_map, hg]
  refine ⟨_, buildProto_ok stringToArray robotState StudentCodeStatus data hacc,
    ?_, ?_, ?_, ?_, ?_, ?_, ?_, ?_, ?_⟩
  · by_cases c1 : strictEq (data.prop "studentCodeStatus") robotState.TELEOP = true
    · simp [c1]
    · by_cases c2 : strictEq (data.prop "studentCodeStatus") robotState.AUTONOMOUS = true
      · simp [c1, c2, s4.symm]
      · by_cases c3 : strictEq (data.prop "studentCodeStatus") robotState.ESTOP = true
        · simp [c1, c2, c3, s5.symm]
        · simp [c1, c2, c3, s1]
  · by_cases c1 : strictEq (data.prop "studentCodeStatus") robotState.TELEOP = true
    · have c2 : ¬ strictEq (data.prop "studentCodeStatus") robotState.AUTONOMOUS = true :=
        fun h => n12 ⟨c1, h⟩
      simp [c1, c2, s4]
    · by_cases c2 : strictEq (data.prop "studentCodeStatus") robotState.AUTONOMOUS = true
      · simp [c1, c2]
      · by_cases c3 : strictEq (data.prop "studentCodeStatus") robotState.ESTOP = true
        · simp [c1, c2, c3, s6.symm]
        · simp [c1, c2, c3, s2]
  · by_cases c1 : strictEq (data.prop "studentCodeStatus") robotState.TELEOP = true
    · have c3 : ¬ strictEq (data.prop "studentCodeStatus") robotState.ESTOP = true :=
        fun h => n13 ⟨c1, h⟩
      simp [c1, c3, s5]
    · by_cases c2 : strictEq (data.prop "studentCodeStatus") robotState.AUTONOMOUS = true
      · have c3 : ¬ strictEq (data.prop "studentCodeStatus") robotState.ESTOP = true :=
          fun h => n23 ⟨c2, h⟩
        simp [c1, c2, c3, s6]
      · by_cases c3 : strictEq (data.prop "studentCodeStatus") robotState.ESTOP = true
        · simp [c1, c2, c3]
        · simp [c1, c2, c3, s3]
  · by_cases c1 : strictEq (data.prop "studentCodeStatus") robotState.TELEOP = true
    · simp [c1, s1.symm]
    · by_cases c2 : strictEq (data.prop "studentCodeStatus") robotState.AUTONOMOUS = true
      · simp [c1, c2, s2.symm]
      · by_cases c3 : strictEq (data.prop "studentCodeStatus") robotState.ESTOP = true
        · simp [c1, c2, c3, s3.symm]
        · simp [c1, c2, c3]
  · intro hu
    simp [hu, u1, u2, u3]
  · simp
  · intro i g hg
    exact ⟨_, hmap _ i g hg, rfl, rfl, rfl⟩
  · intro gs hgs
    refine ⟨by simp [hgs, toArray], ?_⟩
    intro i g hg
    have hg2 : (toArray stringToArray (data.prop "gamepads"))[i]? = some g := by
      simpa [hgs, toArray] using hg
    refine ⟨_, hmap _ i g hg2, rfl, ?_, ?_⟩
    · intro as has
      simp [has, toArray]
    · intro bs hbs
      refine ⟨by simp [hbs, toArray], ?_⟩
      intro j b hb
      simp [hbs, toArray, List.getElem?_map, hb]
  · intro hu
    simp [hu, toArray]

/-- Witness of C13, amended: a payload in TELEOP with one gamepad of one axis and
two buttons, from which buildProto can build a frame. -/
theorem buildProto_frame_witness :
    buildProto.accepts sampleStringToArray samplePayload = true ∧
    (buildProto.accepts sampleStringToArray samplePayload = false →
      ∃ err : JSError,
        buildProto sampleStringToArray sampleRobotState sampleStudentCodeStatus samplePayload =
          .error err) ∧
    (buildProto.accepts sampleStringToArray samplePayload = true →
      ∃ frame : DawnData,
        buildProto sampleStringToArray sampleRobotState sampleStudentCodeStatus samplePayload =
          .ok frame ∧
        (frame.student_code_status = sampleStudentCodeStatus.TELEOP ↔
          strictEq (samplePayload.prop "studentCodeStatus") sampleRobotState.TELEOP = true) ∧
        (frame.student_code_status = sampleStudentCodeStatus.AUTONOMOUS ↔
          strictEq (samplePayload.prop "studentCodeStatus") sampleRobotState.AUTONOMOUS = true) ∧
        (frame.student_code_status = sampleStudentCodeStatus.ESTOP ↔
          strictEq (samplePayload.prop "studentCodeStatus") sampleRobotState.ESTOP = true) ∧
        (frame.student_code_status = sampleStudentCodeStatus.IDLE ↔
          (strictEq (samplePayload.prop "studentCodeStatus") sampleRobotState.TELEOP = false ∧
           strictEq (samplePayload.prop "studentCodeStatus") sampleRobotState.AUTONOMOUS = false ∧
           strictEq (samplePayload.prop "studentCodeStatus") sampleRobotState.ESTOP = false)) ∧
        (samplePayload.prop "studentCodeStatus" = .undefined →
          frame.student_code_status = sampleStudentCodeStatus.IDLE) ∧
        frame.gamepads.length =
          (toArray sampleStringToArray (samplePayload.prop "gamepads")).length ∧
        (∀ (i : Nat) (g : JSVal),
          (toArray sampleStringToArray (samplePayload.prop "gamepads"))[i]? = some g →
          ∃ out : DawnData.Gamepad, frame.gamepads[i]? = some out ∧
            out.index = DawnData.Gamepad.storedIndex (g.prop "index") ∧
            out.axes = toArray sampleStringToArray (g.prop "axes") ∧
            out.buttons = (toArray sampleStringToArray (g.prop "buttons")).map Boolean) ∧
        (∀ gs : List JSVal, samplePayload.prop "gamepads" = .arr gs →
          frame.gamepads.length = gs.length ∧
          ∀ (i : Nat) (g : JSVal), gs[i]? = some g →
            ∃ out : DawnData.Gamepad, frame.gamepads[i]? = some out ∧
              out.index = DawnData.Gamepad.storedIndex (g.prop "index") ∧
              (∀ as : List JSVal, g.prop "axes" = .arr as → out.axes = as) ∧
              (∀ bs : List JSVal, g.prop "buttons" = .arr bs →
                out.buttons.length = bs.length ∧
                ∀ (j : Nat) (b : JSVal), bs[j]? = some b →
                  out.buttons[j]? = some (Boolean b))) ∧
        (samplePayload.prop "gamepads" = .undefined → frame.gamepads = [])) :=
  ⟨rfl, buildProto_frame sampleStringToArray sampleRobotState sampleStudentCodeStatus
    samplePayload
    (by simp [RobotStateTable.Distinct, sampleRobotState, strictEq])
    (by simp [StudentCodeStatusTable.Distinct, sampleStudentCodeStatus])⟩

/-- The frame of the payload of the witness: status TELEOP, and the one gamepad
with its index, its axis, and the truthiness of its two buttons. -/
theorem buildProto_samplePayload :
    buildProto sampleStringToArray sampleRobotState sampleStudentCodeStatus samplePayload =
      .ok { student_code_status := .num 1,
            gamepads := [{ index := .num 0, axes := [.num 1], buttons := [false, true] }] } := by
  rfl

end Dawn
